import Mathlib

/-!
Verification development for the admission/evidence layer of the
fatb4f/neuroctrl repository.

The two programs under study are
  * `.codex/tools/g0_enter_work.py`       (Admission Gate, "G0"), and
  * `tools/evidence/collect_packet_evidence.py` (Evidence Harness).

Both are embedded shallowly: pure Python helpers become Lean functions on
`String`/`List Char`; JSON documents become the inductive `JVal`; the
filesystem becomes an association list from path segments to file values;
every external effect (git subprocesses, filesystem primitives, clock) is
an oracle supplied through an environment record.  The Gate's primitives
are `Except`-valued because the Python code performs them without any
try/except, so a raised exception propagates; the Harness model treats its
primitives as returning values (its two guarded try/except blocks are
modelled by `Except`-valued oracles for exactly the guarded operations).

String operations are re-implemented over `List Char` so that every
definition evaluates inside the kernel (`decide`/`rfl`), mirroring the
Python semantics at each call site.
-/

namespace Neuroctrl

/-! ## Python string primitives (over `List Char`) -/

abbrev Chars := List Char

/-- Python `str.strip()` whitespace set (the ASCII whitespace Python strips). -/
def pyWsChars : List Char := [' ', '\t', '\n', '\r', '\x0b', '\x0c']

def chStrip (l : Chars) : Chars :=
  ((l.dropWhile (fun c => pyWsChars.contains c)).reverse.dropWhile
    (fun c => pyWsChars.contains c)).reverse

/-- Python `s.strip()`. -/
def pyStrip (s : String) : String := ⟨chStrip s.data⟩

/-- Python `s.rstrip("\n")`. -/
def pyRstripNl (s : String) : String :=
  ⟨(s.data.reverse.dropWhile (fun c => c = '\n')).reverse⟩

/-- Split a character list at every occurrence of `sep` (Python `str.split(sep)`). -/
def chSplit (sep : Char) : Chars → List Chars
  | [] => [[]]
  | c :: rest =>
    match chSplit sep rest with
    | cur :: parts => if c = sep then [] :: cur :: parts else (c :: cur) :: parts
    | [] => [[c]]

/-- Python `s.splitlines()` for newline-terminated text (the harness only ever
splits git/porcelain output, which uses plain `\n` line endings). -/
def pySplitlines (s : String) : List String :=
  match s.data with
  | [] => []
  | l =>
    let parts := (chSplit '\n' l).map (fun cs => (⟨cs⟩ : String))
    if l.getLast? = some '\n' then parts.dropLast else parts

/-- Python `sep.join(items)`. -/
def strJoin (sep : String) : List String → String
  | [] => ""
  | [x] => x
  | x :: xs => x ++ sep ++ strJoin sep xs

/-- Python `p.startswith(q)`. -/
def strStarts (p q : String) : Bool := q.data.isPrefixOf p.data

/-- Lexicographic order on code points, as Python compares `str` values. -/
def chLt : Chars → Chars → Bool
  | [], [] => false
  | [], _ :: _ => true
  | _ :: _, [] => false
  | a :: as, b :: bs =>
    if a.toNat < b.toNat then true
    else if b.toNat < a.toNat then false
    else chLt as bs

def strLeB (a b : String) : Bool := a = b || chLt a.data b.data

/-- Insertion into a `le`-sorted list. -/
def ordInsert (le : α → α → Bool) (x : α) : List α → List α
  | [] => [x]
  | y :: ys => if le x y then x :: y :: ys else y :: ordInsert le x ys

/-- Insertion sort; models Python `sorted` (all sorted collections in the
sources have pairwise-distinct elements, so stability is irrelevant). -/
def ordSort (le : α → α → Bool) : List α → List α
  | [] => []
  | x :: xs => ordInsert le x (ordSort le xs)

/-- Drop everything up to and including the first occurrence of `pat`;
`none` when `pat` does not occur (Python `pat in s` test plus
`s.split(pat, 1)[1]`). -/
def chAfterFirst (pat : Chars) : Chars → Option Chars
  | [] => none
  | c :: rest =>
    if pat.isPrefixOf (c :: rest) then some ((c :: rest).drop pat.length)
    else chAfterFirst pat rest

/-- Python `s.partition(sep)` for a single-character separator, returning
the pieces before and after the first occurrence (`(s, "")` when absent). -/
def chPartition (sep : Char) (l : Chars) : Chars × Chars :=
  match l with
  | [] => ([], [])
  | c :: rest =>
    if c = sep then ([], rest)
    else
      let (a, b) := chPartition sep rest
      (c :: a, b)

/-- Decimal rendering of a natural number (kernel-computable `str(n)`). -/
def natStr (n : Nat) : String := String.mk (Nat.toDigits 10 n)

/-- Python `str(i)` for an integer. -/
def intStr (i : Int) : String :=
  if i < 0 then "-" ++ natStr ((-i).toNat) else natStr i.toNat

/-- Python `s.isdigit()` restricted to ASCII digits (all the harness parses
are git numstat columns). -/
def chIsDigits (l : Chars) : Bool :=
  !l.isEmpty && l.all (fun c => '0'.toNat ≤ c.toNat ∧ c.toNat ≤ '9'.toNat)

/-- Python `int(s)` on a digit string. -/
def chToNat (l : Chars) : Nat :=
  l.foldl (fun acc c => acc * 10 + (c.toNat - '0'.toNat)) 0

/-! ## JSON values (Python objects as loaded by `json.loads`) -/

inductive JVal where
  | null
  | bool (b : Bool)
  | int (n : Int)
  | str (s : String)
  | arr (items : List JVal)
  | obj (fields : List (String × JVal))

/-- Python `d.get(k)` on a dict, `None`-defaulting (non-dicts yield `None`;
the sources only call `.get` on values that are dicts in any run that gets
this far). -/
def JVal.get (v : JVal) (k : String) : JVal :=
  match v with
  | .obj fields =>
    match fields.lookup k with
    | some x => x
    | none => .null
  | _ => .null

/-- Python truthiness. -/
def JVal.truthy : JVal → Bool
  | .null => false
  | .bool b => b
  | .int n => n ≠ 0
  | .str s => s ≠ ""
  | .arr l => !l.isEmpty
  | .obj l => !l.isEmpty

/-- Python `a or b`. -/
def pyOr (a b : JVal) : JVal := if a.truthy then a else b

/-- Python `str(v)` (scalar cases are exact; the sources only apply `str`
to scalars on any path the claims exercise). -/
def pyStr : JVal → String
  | .null => "None"
  | .bool true => "True"
  | .bool false => "False"
  | .int n => intStr n
  | .str s => s
  | .arr _ => "<list>"
  | .obj _ => "<dict>"

/-- Read a string out of a `JVal` known to be a string (contract pattern
lists hold strings; a non-string would raise inside Python's matcher). -/
def asStr : JVal → String
  | .str s => s
  | _ => ""

/-- Python `isinstance(v, int)` — note `bool` is a subclass of `int`. -/
def pyIsInt : JVal → Bool
  | .int _ => true
  | .bool _ => true
  | _ => false

/-- Numeric value of an `int`-like Python value (`True` counts as 1). -/
def pyIntVal : JVal → Int
  | .int n => n
  | .bool b => if b then 1 else 0
  | _ => 0

/-- Python `list(v)` behind a truthiness guard (`list(x or [])`): arrays
stay themselves, dict iteration yields keys, strings yield characters. -/
def pyList : JVal → List JVal
  | .arr l => l
  | .obj l => l.map (fun kv => JVal.str kv.1)
  | .str s => s.data.map (fun c => JVal.str ⟨[c]⟩)
  | _ => []

/-- Python dict assignment `d[k] = x` when `k` may or may not be present:
replaces in place, else appends (insertion-ordered dicts). -/
def objSet (v : JVal) (k : String) (x : JVal) : JVal :=
  match v with
  | .obj fields =>
    if fields.any (fun kv => kv.1 = k) then
      .obj (fields.map (fun kv => if kv.1 = k then (k, x) else kv))
    else
      .obj (fields ++ [(k, x)])
  | w => w

/-! ## Filesystem model

Files are keyed by their path split into segments (what `pathlib` tracks);
file contents are `JVal`s: text files are stored as `.str` payloads and
`write_json` stores the JSON document itself.  Serialization plus SHA-256
of a written document is abstracted as a single oracle function
(`HEnv.sha` below), injective in practice. -/

abbrev Path := List String

abbrev Fs := List (Path × JVal)

def fsGet (fs : Fs) (p : Path) : Option JVal := fs.lookup p

def fsSet (fs : Fs) (p : Path) (v : JVal) : Fs :=
  (p, v) :: fs.filter (fun e => !(e.1 == p))

/-- Split a path string on `/` into segments (how `pathlib` decomposes the
string arguments of `/`). -/
def splitPathStr (s : String) : Path :=
  (chSplit '/' s.data).map (fun cs => (⟨cs⟩ : String))

/-! ## Shared Decision accumulator (`Decision` dataclass, g0_enter_work.py
lines 100-110) -/

structure Decision where
  allow : Bool := true
  deny_code : Option String := none
  message : Option String := none
deriving DecidableEq

/-- `Decision.deny`: flips to deny and records code/message only while still
allowing; otherwise a no-op. -/
def Decision.deny (d : Decision) (code msg : String) : Decision :=
  if d.allow then { allow := false, deny_code := some code, message := some msg }
  else d

/-- Fold a sequence of `deny(code, message)` calls over a decision value. -/
def denyAll (d : Decision) (calls : List (String × String)) : Decision :=
  calls.foldl (fun acc c => acc.deny c.1 c.2) d

/-! ## Path matcher (collect_packet_evidence.py lines 92-121)

`fnmatch.fnmatch` on POSIX normalizes case trivially and then glob-matches
with `*`, `?` and `[...]` character classes; `globMatch` implements that
semantics with a fuel argument so it evaluates structurally (the fuel
`pattern.length + string.length + 1` dominates the recursion depth). -/

/-- Scan a `[...]` class body after any leading `!`/literal `]`: a list of
closed character ranges plus the rest of the pattern; `none` when the class
is unterminated (then `[` matches literally, as fnmatch's regex translation
does). -/
def scanSet : Chars → Option (List (Char × Char) × Chars)
  | [] => none
  | ']' :: rest => some ([], rest)
  | a :: '-' :: b :: rest =>
    if b = ']' then some ([(a, a), ('-', '-')], rest)
    else
      match scanSet rest with
      | some (items, r) => some ((a, b) :: items, r)
      | none => none
  | a :: rest =>
    match scanSet rest with
    | some (items, r) => some ((a, a) :: items, r)
    | none => none

/-- Parse a bracket class right after `[`: negation flag, ranges, remainder. -/
def parseBracket (l : Chars) : Option (Bool × List (Char × Char) × Chars) :=
  let (neg, l2) := match l with
    | '!' :: r => (true, r)
    | _ => (false, l)
  match l2 with
  | ']' :: rest =>
    match scanSet rest with
    | some (items, r) => some (neg, (']', ']') :: items, r)
    | none => none
  | _ =>
    match scanSet l2 with
    | some (items, r) => some (neg, items, r)
    | none => none

def globMatch : Nat → Chars → Chars → Bool
  | 0, _, _ => false
  | _ + 1, [], [] => true
  | _ + 1, [], _ :: _ => false
  | f + 1, '*' :: ps, s =>
    globMatch f ps s ||
      (match s with
       | [] => false
       | _ :: s2 => globMatch f ('*' :: ps) s2)
  | f + 1, '?' :: ps, s =>
    (match s with
     | [] => false
     | _ :: s2 => globMatch f ps s2)
  | f + 1, '[' :: ps, s =>
    (match parseBracket ps with
     | none =>
       (match s with
        | [] => false
        | c2 :: s2 => '[' = c2 && globMatch f ps s2)
     | some (neg, items, rest) =>
       (match s with
        | [] => false
        | c2 :: s2 =>
          let mem := items.any (fun r => r.1.toNat ≤ c2.toNat && c2.toNat ≤ r.2.toNat)
          (if neg then !mem else mem) && globMatch f rest s2))
  | f + 1, c :: ps, s =>
    (match s with
     | [] => false
     | c2 :: s2 => c = c2 && globMatch f ps s2)

/-- `fnmatch.fnmatch(p, pat)`. -/
def fnmatchB (p pat : String) : Bool :=
  globMatch (pat.data.length + p.data.length + 1) pat.data p.data

/-- `normalize_path` (lines 92-93): `s.replace("\\", "/").lstrip("./")` —
the replacement is a single-character substitution and `lstrip` drops every
leading character belonging to the set `{., /}`. -/
def normalize_path (s : String) : String :=
  ⟨(s.data.map (fun c => if c = '\\' then '/' else c)).dropWhile
    (fun c => c = '.' || c = '/')⟩

/-- Does a normalized pattern contain one of fnmatch's wildcard characters? -/
def hasWildcard (s : String) : Bool :=
  s.data.any (fun c => c = '*' || c = '?' || c = '[')

/-- Python `s.rstrip("/")`. -/
def rstripSlash (s : String) : String :=
  ⟨(s.data.reverse.dropWhile (fun c => c = '/')).reverse⟩

/-- `matches_allowed` (lines 96-107). -/
def matches_allowed (path : String) (allowed : List String) : Bool :=
  let p := normalize_path path
  allowed.any (fun a =>
    let aNorm := normalize_path a
    if hasWildcard aNorm then fnmatchB p aNorm
    else
      let aDir := rstripSlash aNorm
      p = aDir || strStarts p (aDir ++ "/"))

/-- `matches_any` (lines 110-121) — textually duplicated matcher in the
source, duplicated here likewise. -/
def matches_any (path : String) (patterns : List String) : Bool :=
  let p := normalize_path path
  patterns.any (fun pat =>
    let patNorm := normalize_path pat
    if hasWildcard patNorm then fnmatchB p patNorm
    else
      let patDir := rstripSlash patNorm
      p = patDir || strStarts p (patDir ++ "/"))

/-- `paths_from_porcelain` (lines 124-139): best-effort path extraction from
`git status --porcelain` lines. -/
def paths_from_porcelain (lines : List String) : List String :=
  lines.filterMap (fun ln0 =>
    let ln := pyRstripNl ln0
    if pyStrip ln = "" then none
    else if ln.data.length < 4 then none
    else
      let path0 := pyStrip ⟨ln.data.drop 3⟩
      let path :=
        match chAfterFirst (" -> ").data path0.data with
        | some aft => pyStrip ⟨aft⟩
        | none => path0
      if path = "" then none else some path)

/-! ## Admission Gate embedding (g0_enter_work.py)

Every Python-level primitive the gate performs without a try/except is an
`Except`-valued oracle: `run(...)` can raise (e.g. a missing `git` binary),
`mkdir` and `write_text` can raise `OSError`.  A nonzero subprocess exit
code is *not* a raise — it comes back as a `Proc` with `rc ≠ 0`, exactly as
`subprocess.run(capture_output=True)` reports it. -/

structure Proc where
  rc : Int
  out : String
  err : String

/-- Key/value update on an insertion-ordered dict. -/
def dictSet (d : List (String × α)) (k : String) (v : α) : List (String × α) :=
  if d.any (fun kv => kv.1 = k) then d.map (fun kv => if kv.1 = k then (k, v) else kv)
  else d ++ [(k, v)]

/-- Flush `current` into `entries` when it has a truthy `path` key
(`parse_worktree_list` lines 78-79 and 86-87). -/
def wtFlush (entries : List (String × List (String × String)))
    (current : List (String × String)) : List (String × List (String × String)) :=
  match current.lookup ("path") with
  | some p => if p ≠ "" then dictSet entries p current else entries
  | none => entries

/-- One line of `git worktree list --porcelain` output (lines 76-85). -/
def wtStep (acc : List (String × List (String × String)) × List (String × String))
    (line : String) : List (String × List (String × String)) × List (String × String) :=
  let (entries, current) := acc
  if strStarts line ("worktree ") then
    let p :=
      match chAfterFirst ([' ']) line.data with
      | some aft => pyStrip ⟨aft⟩
      | none => ""
    (wtFlush entries current, [("path", p)])
  else if pyStrip line = "" then (entries, current)
  else
    let (k, v) := chPartition ' ' line.data
    (entries, dictSet current ⟨k⟩ (pyStrip ⟨v⟩))

/-- `parse_worktree_list` (lines 70-88) applied to already-captured porcelain
output; a failed listing (`rc ≠ 0`) is mapped to `[]` by the caller. -/
def parse_worktree_list (out : String) : List (String × List (String × String)) :=
  let (entries, current) := (pySplitlines out).foldl wtStep ([], [])
  wtFlush entries current

/-- `worktree_branch` (lines 91-97). -/
def worktree_branch (entry : List (String × String)) : Option String :=
  match entry.lookup ("branch") with
  | none => none
  | some b =>
    if b = "" then none
    else if strStarts b ("refs/heads/") then some ⟨b.data.drop 11⟩
    else some b

/-- Unfinished-operation markers probed in the worktree's git dir (lines 45-58). -/
def gitOpMarkers : List String :=
  ["rebase-apply", "rebase-merge", "MERGE_HEAD", "CHERRY_PICK_HEAD",
   "REVERT_HEAD", "BISECT_LOG", "BISECT_NAMES"]

def git_op_in_progress (markerExists : String → Bool) : Bool :=
  gitOpMarkers.any markerExists

/-- `safe_read_json` (lines 61-67): missing file and parse failure are both
caught inside the function, so it never raises. -/
def safe_read_json (exists_ : Bool) (parse : Except String JVal) (pathStr : String) :
    Option JVal × Option String :=
  if !exists_ then (none, some ("contract not found: " ++ pathStr))
  else
    match parse with
    | .ok j => (some j, none)
    | .error e => (none, some ("failed to parse contract json: " ++ e))

/-- `default_evidence_path` (lines 113-120), as a string path. -/
def default_evidence_path (contract : Option JVal) : String :=
  let out_dir := ".codex/out"
  let packet_id := "unknown"
  let (out_dir, packet_id) :=
    match contract with
    | none => (out_dir, packet_id)
    | some c =>
      let packet_id := pyStr (pyOr (c.get ("packet_id")) (.str packet_id))
      let evidence := pyOr (c.get ("evidence")) (.obj [])
      (pyStr (pyOr (evidence.get ("out_dir")) (.str out_dir)), packet_id)
  out_dir ++ "/" ++ packet_id ++ "/g0_enter_work.json"

/-- Absent-vs-present dict lookup, for `policy.get(k, default)` where an
explicit JSON `null` and a missing key must be distinguished. -/
def JVal.getOpt (v : JVal) (k : String) : Option JVal :=
  match v with
  | .obj fields => fields.lookup k
  | _ => none

/-- Gate environment: one oracle per primitive call site, in source order. -/
structure GEnv where
  runToplevel : Except String Proc        -- run(["git","rev-parse","--show-toplevel"])
  contractExists : Bool                   -- contract_path.exists()
  contractParse : Except String JVal      -- read_text + json.loads (caught in safe_read_json)
  mkdirEvidenceParent : Except String Unit -- evidence_path.parent.mkdir(...)
  runWorktreeList : Except String Proc    -- run(["git","worktree","list","--porcelain"])
  wtPathExists : Bool                     -- wt_path.exists() (stable within one run)
  mkdirWtRoot : Except String Unit        -- wt_root.mkdir(...)
  runShowRefBranch : Except String Proc   -- run(["git","show-ref","--verify",...])
  runWorktreeAdd : Except String Proc     -- run(["git","worktree","add",...]) (either form)
  runGitDirWt : Except String Proc        -- run(["git","rev-parse","--git-dir"], cwd=wt)
  markerExists : String → Bool            -- (gitdir / marker).exists()
  runRevParseBase : Except String Proc    -- run(["git","rev-parse","--verify",base_ref])
  runRevParseHeadWt : Except String Proc  -- run(["git","rev-parse","HEAD"], cwd=wt)
  runAbbrevRefWt : Except String Proc     -- run(["git","rev-parse","--abbrev-ref","HEAD"])
  runMergeBase : Except String Proc       -- run(["git","merge-base","HEAD",base_sha])
  runPushDryRun : Except String Proc      -- run(["git","push","--dry-run","-u","origin",...])
  writeEvidence : Except String Unit      -- evidence_path.write_text(...)
  now : String                            -- utc_now()

structure GArgs where
  contract : String                        -- --contract (the --evidence-out override only
                                           -- relocates the record and is not modelled)

structure G0Out where
  exitCode : Int
  evidence : JVal
  evidencePath : String

/-- Run an `Except`-valued subprocess oracle only when its guard holds, as
the source guards each call with `decision.allow and ...`. -/
def runIf (b : Bool) (act : Except String Proc) : Except String (Option Proc) :=
  if b then
    match act with
    | .ok p => .ok (some p)
    | .error e => .error e
  else .ok none

def runIfU (b : Bool) (act : Except String Unit) : Except String Unit :=
  if b then act else .ok ()

/-- Contract-derived packet id as the gate extracts it (line 147). -/
def g0PacketId (c : JVal) : String := pyStr (pyOr (c.get ("packet_id")) (.str ("")))

def g0Branch (c : JVal) : String := pyStr (pyOr (c.get ("branch")) (.str ("")))

def g0BaseRef (c : JVal) : String := pyStr (pyOr (c.get ("base_ref")) (.str ("")))

def g0WtRootStr (c : JVal) : String :=
  pyStr (pyOr ((pyOr (c.get ("worktree_policy")) (.obj [])).get ("worktree_root"))
    (.str (".codex/.worktrees")))

/-- `policy.get("deny_if_worktree_exists", True)` (line 153). -/
def g0DenyIfExists (c : JVal) : Bool :=
  match (pyOr (c.get ("worktree_policy")) (.obj [])).getOpt ("deny_if_worktree_exists") with
  | some x => x.truthy
  | none => true

/-- Contract extraction and completeness check (lines 137-155):
packet id, branch, base ref, github flag, worktree root, collision policy
and the decision after the completeness check. -/
def g0Fields (contract : Option JVal) (contractErr : Option String) :
    String × String × String × Bool × String × Bool × Decision :=
  match contract with
  | none =>
    ("", "", "", false, ".codex/.worktrees", true,
      Decision.deny {} ("WORKTREE_MISMATCH")
        (match contractErr with
         | some e => e
         | none => "contract parse failed"))
  | some c =>
    let d :=
      if g0PacketId c = "" ∨ g0Branch c = "" ∨ g0BaseRef c = "" then
        Decision.deny {} ("WORKTREE_MISMATCH") ("contract missing packet_id/branch/base_ref")
      else {}
    (g0PacketId c, g0Branch c, g0BaseRef c, (c.get ("github_ops_required")).truthy,
      g0WtRootStr c, g0DenyIfExists c, d)

/-- Repository-presence check (lines 157-158). -/
def g0RepoCheck (d : Decision) (repoRoot : Option String) : Decision :=
  if repoRoot = none then d.deny ("WORKTREE_MISMATCH") ("not a git repository") else d

/-- Collision checks (lines 172-179): policy collision, then the
exists-but-unregistered collision; `Path.resolve()` is the identity here. -/
def g0Collision (d : Decision) (wtPath : Option String) (wtExists deny_if_exists : Bool)
    (registered : List String) : Decision × Bool :=
  let d3 :=
    if d.allow && wtPath.isSome && wtExists && deny_if_exists then
      d.deny ("WORKTREE_COLLISION") ("worktree exists and deny_if_worktree_exists=true")
    else d
  if d3.allow && wtPath.isSome && wtExists
      && !(registered.contains (wtPath.getD (""))) then
    (d3.deny ("WORKTREE_COLLISION") ("worktree path exists but is not registered"), true)
  else (d3, false)

/-- Reuse validation (lines 181-188): branch binding of the registered
entry must equal the contract's branch. -/
def g0Reuse (d : Decision) (wtPath : Option String) (wtExists : Bool)
    (wtList : List (String × List (String × String))) (branch : String) :
    Decision × Bool × String :=
  if d.allow && wtPath.isSome && wtExists then
    let entry :=
      match wtList.lookup (wtPath.getD ("")) with
      | some e => e
      | none => []
    match worktree_branch entry with
    | some wb =>
      if wb ≠ branch then
        let det := "branch mismatch: expected " ++ branch ++ ", found " ++ wb
        (d.deny ("WORKTREE_MISMATCH") det, false, det)
      else (d, true, "")
    | none =>
      let det := "branch mismatch: expected " ++ branch ++ ", found None"
      (d.deny ("WORKTREE_MISMATCH") det, false, det)
  else (d, false, "")

/-- Worktree-add outcome (lines 199-203). -/
def g0CreateRes (d : Decision) (addRes : Option Proc) : Decision × Bool :=
  match addRes with
  | some p =>
    if p.rc ≠ 0 then
      (d.deny ("WORKTREE_MISMATCH")
        ("git worktree add failed: " ++
          (if pyStrip p.err ≠ "" then pyStrip p.err else pyStrip p.out)), false)
    else (d, true)
  | none => (d, false)

/-- `git_dir` result (lines 30-35 via 206). -/
def g0GitDir (gdRes : Option Proc) : Option String :=
  match gdRes with
  | some p => if p.rc ≠ 0 then none else some (pyStrip p.out)
  | none => none

/-- In-progress operation guard (lines 205-208). -/
def g0OpDeny (d : Decision) (opGuard : Bool) (gdir : Option String) (inProg : Bool) :
    Decision :=
  if opGuard && gdir.isSome && inProg then
    d.deny ("GIT_OP_IN_PROGRESS") ("git operation in progress in worktree")
  else d

/-- `base_sha = git_rev_parse(repo_root, base_ref) or ""` (line 215). -/
def g0BaseSha (bres : Option Proc) : String :=
  match bres with
  | some p => if p.rc ≠ 0 then "" else pyStrip p.out
  | none => ""

/-- `head_sha` capture (lines 216-218). -/
def g0HeadSha (hres : Option Proc) : String :=
  match hres with
  | some p => if p.rc = 0 then pyStrip p.out else ""
  | none => ""

/-- `head_ref` capture (lines 219-220). -/
def g0HeadRef (rres : Option Proc) : String :=
  match rres with
  | some p => if p.rc = 0 then pyStrip p.out else ""
  | none => ""

/-- Merge-base comparison (lines 222-226). -/
def g0Ancestor (mres : Option Proc) (base_sha : String) : Option Bool :=
  match mres with
  | some p => some (if p.rc = 0 then pyStrip p.out = base_sha else false)
  | none => none

/-- Ancestry denial (lines 227-228). -/
def g0AncDeny (d : Decision) (mbGuard : Bool) (anc : Option Bool) : Decision :=
  if mbGuard && anc = some false then
    d.deny ("WORKTREE_MISMATCH") ("base_ref is not an ancestor of worktree HEAD")
  else d

/-- Push probe record (lines 230-234). -/
def g0PushProbe (pres : Option Proc) : JVal :=
  match pres with
  | some p => .obj [("rc", .int p.rc), ("stdout", .str p.out), ("stderr", .str p.err)]
  | none => .obj []

/-- Push denial (lines 235-236). -/
def g0PushDeny (d : Decision) (pres : Option Proc) (required : Bool) : Decision :=
  match pres with
  | some p =>
    if required && p.rc ≠ 0 then
      d.deny ("GH_PUSH_DENIED") ("git push --dry-run failed")
    else d
  | none => d

/-- The gate's evidence record (lines 238-261). -/
def g0Evidence (now : String) (repoRoot : Option String)
    (packet_id branch base_ref base_sha head_ref head_sha : String)
    (github_ops_required : Bool) (worktree_root : String) (deny_if_exists : Bool)
    (wtPath : Option String) (worktree_created worktree_reused collision : Bool)
    (mismatch_detail : String) (base_is_ancestor : Option Bool)
    (push_probe : JVal) (d : Decision) : JVal :=
  .obj
    [("stage", .str ("G0")),
     ("timestamp_utc", .str now),
     ("repo_root", match repoRoot with | some r => .str r | none => .null),
     ("packet_id", .str packet_id),
     ("branch", .str branch),
     ("base_ref", .str base_ref),
     ("base_sha", if base_sha = "" then .null else .str base_sha),
     ("head_ref", .str head_ref),
     ("head_sha", if head_sha = "" then .null else .str head_sha),
     ("github_ops_required", .bool github_ops_required),
     ("worktree_root", .str worktree_root),
     ("deny_if_worktree_exists", .bool deny_if_exists),
     ("worktree_path", match wtPath with | some w => .str w | none => .null),
     ("worktree_created", .bool worktree_created),
     ("worktree_reused", .bool worktree_reused),
     ("collision", .bool collision),
     ("mismatch_detail", if mismatch_detail = "" then .null else .str mismatch_detail),
     ("base_ref_is_ancestor", match base_is_ancestor with | some b => .bool b | none => .null),
     ("push_probe", push_probe),
     ("decision", .str (if d.allow then "ALLOW" else "DENY")),
     ("deny_code", match d.deny_code with | some c => .str c | none => .null),
     ("message", match d.message with | some m => .str m | none => .null)]

/-- `main` of g0_enter_work.py (lines 123-264).  An `Except.error` result is
a Python exception escaping `main` (no evidence record written); an
`Except.ok` result carries the exit code and the evidence record written
just before returning. -/
def g0main (env : GEnv) (args : GArgs) : Except String G0Out := do
  let repoRoot : Option String ← (match env.runToplevel with
    | .error e => .error e
    | .ok p => .ok (if p.rc ≠ 0 then none else some (pyStrip p.out)))
  let (contract, contractErr) := safe_read_json env.contractExists env.contractParse args.contract
  let evidencePathStr := default_evidence_path contract
  let _ ← env.mkdirEvidenceParent
  let (packet_id, branch, base_ref, github_ops_required, worktree_root, deny_if_exists, d1) :=
    g0Fields contract contractErr
  let d2 := g0RepoCheck d1 repoRoot
  let wtRoot : Option String :=
    match repoRoot with
    | some r => some (r ++ "/" ++ worktree_root)
    | none => none
  let wtPath : Option String :=
    match wtRoot with
    | some wr => if packet_id != "" then some (wr ++ "/" ++ packet_id) else none
    | none => none
  let wtListRes ← runIf (d2.allow && repoRoot.isSome) env.runWorktreeList
  let wtList : List (String × List (String × String)) :=
    match wtListRes with
    | some p => if p.rc ≠ 0 then [] else parse_worktree_list p.out
    | none => []
  let (d4, collision) :=
    g0Collision d2 wtPath env.wtPathExists deny_if_exists (wtList.map (fun e => e.1))
  let (d5, worktree_reused, mismatch_detail) :=
    g0Reuse d4 wtPath env.wtPathExists wtList branch
  let creating := d5.allow && wtPath.isSome && !env.wtPathExists
  let _ ← runIfU creating env.mkdirWtRoot
  let _ ← runIf creating env.runShowRefBranch
  let addRes ← runIf creating env.runWorktreeAdd
  let (d6, worktree_created) := g0CreateRes d5 addRes
  let opGuard := d6.allow && wtPath.isSome
  let gdRes ← runIf opGuard env.runGitDirWt
  let d7 := g0OpDeny d6 opGuard (g0GitDir gdRes) (git_op_in_progress env.markerExists)
  let ancGuard := d7.allow && wtPath.isSome && repoRoot.isSome && (base_ref != "")
  let bres ← runIf ancGuard env.runRevParseBase
  let base_sha := g0BaseSha bres
  let hres ← runIf ancGuard env.runRevParseHeadWt
  let head_sha := g0HeadSha hres
  let rres ← runIf ancGuard env.runAbbrevRefWt
  let head_ref := g0HeadRef rres
  let mbGuard := ancGuard && (base_sha != "")
  let mres ← runIf mbGuard env.runMergeBase
  let base_is_ancestor := g0Ancestor mres base_sha
  let d8 := g0AncDeny d7 mbGuard base_is_ancestor
  let pushGuard := d8.allow && wtPath.isSome
  let pres ← runIf pushGuard env.runPushDryRun
  let push_probe := g0PushProbe pres
  let d9 := g0PushDeny d8 pres github_ops_required
  let evidence := g0Evidence env.now repoRoot packet_id branch base_ref base_sha head_ref
    head_sha github_ops_required worktree_root deny_if_exists wtPath worktree_created
    worktree_reused collision mismatch_detail base_is_ancestor push_probe d9
  let _ ← env.writeEvidence
  pure { exitCode := if d9.allow then 0 else 2, evidence := evidence,
         evidencePath := evidencePathStr }

/-- No Python-level primitive raises during the run (nonzero git exit codes
are still allowed — they are results, not exceptions). -/
def GEnv.noRaise (env : GEnv) : Prop :=
  (∃ p, env.runToplevel = .ok p) ∧
  env.mkdirEvidenceParent = .ok () ∧
  (∃ p, env.runWorktreeList = .ok p) ∧
  env.mkdirWtRoot = .ok () ∧
  (∃ p, env.runShowRefBranch = .ok p) ∧
  (∃ p, env.runWorktreeAdd = .ok p) ∧
  (∃ p, env.runGitDirWt = .ok p) ∧
  (∃ p, env.runRevParseBase = .ok p) ∧
  (∃ p, env.runRevParseHeadWt = .ok p) ∧
  (∃ p, env.runAbbrevRefWt = .ok p) ∧
  (∃ p, env.runMergeBase = .ok p) ∧
  (∃ p, env.runPushDryRun = .ok p) ∧
  env.writeEvidence = .ok ()

/-! ## Evidence Harness embedding (collect_packet_evidence.py)

The harness catches exceptions around exactly two operations (locating the
repository, parsing the contract); those two oracles are `Except`-valued.
All other primitives are modelled as returning values (their Python-level
failure modes are outside this model).  Within a single invocation the two
`rev-parse HEAD` captures (before/after) run back to back, so a single pure
`git` oracle keyed by the argument list is faithful. -/

structure HEnv where
  gitRootRes : Except String Path      -- git_root(): toplevel path segments, or the raised error
  contractParse : Except String JVal   -- read_text + json.loads of the contract
  metaExists : Bool                    -- meta_path.exists()
  metaParse : Except String JVal       -- json.loads of the meta file (failure yields {})
  wtCandidateExists : Bool             -- (root/.codex/.worktrees/packet_id).exists()
  git : List String → Proc             -- run(["git"] + args, cwd=wt)
  now0 : String                        -- generated_at = utc_now() (line 155)
  nowEv : String                       -- utc_now() when rendering evidence (line 344 / fallbacks)
  dumps : JVal → String                -- json.dumps for the human-readable summary
  sha : JVal → String                  -- sha256 hex digest of a written file's serialized bytes
  size : JVal → Int                    -- byte size of a written file

/-- `git_capture` (lines 142-146). -/
def git_capture (env : HEnv) (args : List String) : String :=
  let p := env.git args
  if p.rc ≠ 0 then (if p.err = "" then "" else "!! " ++ pyStrip p.err) else p.out

/-- Text payload of a stored file (raw snapshot files are always `.str`). -/
def asText : JVal → String
  | .str s => s
  | _ => ""

/-- Reuse-or-capture for a head snapshot file (lines 216-220 and 229-234):
read-and-strip when the file exists, else strip the live capture and
persist it (newline-terminated when non-empty). -/
def captureHead (fs : Fs) (p : Path) (live : String) : Fs × String :=
  match fsGet fs p with
  | some v => (fs, pyStrip (asText v))
  | none =>
    let h := pyStrip live
    (fsSet fs p (.str (h ++ (if h ≠ "" then "\n" else ""))), h)

/-- Reuse-or-capture for a porcelain status snapshot file (lines 222-226 and
236-241): non-blank lines of the existing file, else of the live capture. -/
def captureStatus (fs : Fs) (p : Path) (live : String) : Fs × List String :=
  match fsGet fs p with
  | some v => (fs, (pySplitlines (asText v)).filter (fun ln => pyStrip ln != ""))
  | none =>
    let st := (pySplitlines live).filter (fun ln => pyStrip ln != "")
    (fsSet fs p (.str (strJoin ("\n") st ++ (if st ≠ [] then "\n" else ""))), st)

/-- `[ln.strip() for ln in s.splitlines() if ln.strip()]`. -/
def stripNonEmptyLines (s : String) : List String :=
  ((pySplitlines s).filter (fun ln => pyStrip ln != "")).map pyStrip

/-- One line of `git diff --numstat` output (lines 277-289).  The source
splits with `split("\t", 2)` and only reads the first two fields, so an
unbounded tab-split is equivalent. -/
def numstatStep (acc : Int × Int × Int) (ln0 : String) : Int × Int × Int :=
  let (added, deleted, tracked) := acc
  let ln := pyStrip ln0
  if ln = "" then acc
  else
    match chSplit '\t' ln.data with
    | a :: d :: _ =>
      let added := if chIsDigits a then added + (chToNat a : Int) else added
      let deleted := if chIsDigits d then deleted + (chToNat d : Int) else deleted
      (added, deleted, tracked + 1)
    | _ => acc

def parseNumstat (lines : List String) : Int × Int × Int :=
  lines.foldl numstatStep (0, 0, 0)

/-- Constraint evaluation (lines 294-320), producing the ordered
`violations` list. -/
def harnessViolations (allowed forbidden : List String)
    (changed statusPathsAfter : List String) (budgets : JVal)
    (changed_files total_lines : Int) : List JVal :=
  let v1 : List JVal :=
    if allowed ≠ [] then
      let bad := changed.filter (fun p => !(matches_allowed p allowed))
      if bad ≠ [] then
        [.obj [("code", .str ("DIFF_OUTSIDE_ALLOWED_PATHS")),
               ("details", .obj [("bad_paths", .arr (bad.map JVal.str))])]]
      else []
    else []
  let forbidden_hit : List String :=
    if forbidden ≠ [] then
      ordSort strLeB (List.eraseDups (statusPathsAfter.filterMap (fun p =>
        let pn := normalize_path p
        if matches_any pn forbidden then some pn else none)))
    else []
  let v2 : List JVal :=
    if forbidden_hit ≠ [] then
      [.obj [("code", .str ("FORBIDDEN_OUTPUT_PRESENT")),
             ("details", .obj [("paths", .arr (forbidden_hit.map JVal.str))])]]
    else []
  let max_files := budgets.get ("max_changed_files")
  let max_lines := budgets.get ("max_changed_lines")
  let budget_viol : List JVal :=
    (if pyIsInt max_files && decide (changed_files > pyIntVal max_files) then
       [.arr [.str ("max_changed_files"), .int changed_files, .int (pyIntVal max_files)]]
     else []) ++
    (if pyIsInt max_lines && decide (total_lines > pyIntVal max_lines) then
       [.arr [.str ("max_changed_lines"), .int total_lines, .int (pyIntVal max_lines)]]
     else [])
  let v3 : List JVal :=
    if !budget_viol.isEmpty then
      [.obj [("code", .str ("DIFF_BUDGET_EXCEEDED")),
             ("details", .obj [("violations", .arr budget_viol)])]]
    else []
  v1 ++ v2 ++ v3

/-- Python `v == "LIT"` on a JSON value. -/
def isStrEq (v : JVal) (s : String) : Bool :=
  match v with
  | .str t => t = s
  | _ => false

/-- Final decision (lines 330-334): the harness is authoritative over any
decision embedded in the run-metadata record. -/
def harnessDecision (mdec : JVal) (violations : List JVal) : String :=
  let d :=
    if isStrEq mdec ("ALLOW") || isStrEq mdec ("DENY") then pyStr mdec
    else if !violations.isEmpty then "DENY" else "ALLOW"
  if !violations.isEmpty then "DENY" else d

/-- `reasons` normalization (lines 336-338). -/
def reasonsBase (mreasons : JVal) : List JVal :=
  match pyOr mreasons (.arr []) with
  | .arr l => l
  | r => [.str (pyStr r)]

/-- `reasons` with the override marker (lines 336-340). -/
def harnessReasons (mreasons mdec : JVal) (violations : List JVal) : List JVal :=
  let reasons := reasonsBase mreasons
  if !violations.isEmpty && isStrEq mdec ("ALLOW") then
    reasons ++ [.str ("constraint_violations")]
  else reasons

/-- `list_files` (lines 81-89): every stored file under `root`, skipping
anything with a `.git` path component (directories are implicit). -/
def list_files (fs : Fs) (root : Path) : List (Path × JVal) :=
  fs.filter (fun e => root.isPrefixOf e.1 && !(e.1.contains (".git")))

/-- Sort key for manifest entries (line 415: `sorted(entries, key=path)`). -/
def entryPathLe (a b : JVal) : Bool :=
  strLeB (asStr (a.get ("path"))) (asStr (b.get ("path")))

/-- evidence.md rendering (lines 374-403). -/
def mdRender (dumps : JVal → String)
    (packet_id generated_at decision base_ref wtStr head_before head_after : String)
    (changed_files added deleted : Int) (test_cmd test_result : String)
    (test_rc : JVal) (violations : List JVal) : String :=
  let md : List String :=
    [("# Evidence — " ++ packet_id), "",
     ("- Generated (UTC): `" ++ generated_at ++ "`"),
     ("- Decision: **" ++ decision ++ "**"),
     ("- Base ref: `" ++ base_ref ++ "`"),
     ("- Worktree: `" ++ wtStr ++ "`"), "",
     "## Heads",
     ("- Before: `" ++ head_before ++ "`"),
     ("- After: `" ++ head_after ++ "`"), "",
     "## Diff",
     ("- Changed files: " ++ intStr changed_files),
     ("- Lines added/deleted: " ++ intStr added ++ "/" ++ intStr deleted), "",
     "## Tests",
     (if test_cmd ≠ "" then "- Command: `" ++ test_cmd ++ "`" else "- Command: *(none)*"),
     ("- Result: **" ++ test_result ++ "**")] ++
    (if pyIsInt test_rc then [("- Exit code: `" ++ intStr (pyIntVal test_rc) ++ "`")] else []) ++
    ["", "## Constraint violations"] ++
    (if !violations.isEmpty then ["```json", dumps (.arr violations), "```"] else ["- None"]) ++
    [""]
  strJoin ("\n") md ++ "\n"

/-- The filled artifacts block (lines 423-427). -/
def artifactsIndex (rawNames : List String) : JVal :=
  .obj [("raw", .arr (rawNames.map JVal.str)),
        ("manifest", .str ("manifest.json")),
        ("manifest_sha256", .str ("manifest.sha256"))]

/-- One manifest entry (line 414), skipping the manifest's own files. -/
def manifestEntry (env : HEnv) (out_dir : Path) (e : Path × JVal) : Option JVal :=
  let rel := strJoin ("/") (e.1.drop out_dir.length)
  if rel = "manifest.json" ∨ rel = "manifest.sha256" then none
  else some (JVal.obj [("path", .str rel), ("sha256", .str (env.sha e.2)),
                       ("size", .int (env.size e.2))])

/-- The manifest's sorted file entries (lines 409-415). -/
def manifestFiles (env : HEnv) (fs : Fs) (out_dir : Path) : List JVal :=
  ordSort entryPathLe ((list_files fs out_dir).filterMap (manifestEntry env out_dir))

/-- Bundle-relative names of the raw files (line 422). -/
def rawNames (fs : Fs) (out_dir : Path) : List String :=
  (list_files fs (out_dir ++ ["raw"])).map (fun e => strJoin ("/") (e.1.drop out_dir.length))

/-- Manifest construction plus the second serialization of evidence.json
(lines 408-428): the manifest hashes the bundle as it stands (including
the evidence.json just written with an empty artifacts object), then
evidence.json is rewritten with the filled artifacts index. -/
def finalizePhase (env : HEnv) (fs : Fs) (out_dir : Path) (evidence : JVal) : Fs :=
  let manifest : JVal := .obj [("generated_at_utc", .str env.now0),
                               ("files", .arr (manifestFiles env fs out_dir))]
  let fs := fsSet fs (out_dir ++ ["manifest.json"]) manifest
  let m_hash := env.sha manifest
  let fs := fsSet fs (out_dir ++ ["manifest.sha256"]) (.str (m_hash ++ "  manifest.json\n"))
  let evidence2 := objSet evidence ("artifacts")
    (artifactsIndex (ordSort strLeB (rawNames fs out_dir)))
  fsSet fs (out_dir ++ ["evidence.json"]) evidence2

/-- Contract-derived packet id (line 178). -/
def packetIdOf (contract : JVal) : String :=
  pyStr (pyOr (contract.get ("packet_id")) (.str ("unknown")))

def evidenceCfgOf (contract : JVal) : JVal :=
  pyOr (contract.get ("evidence")) (.obj [])

/-- Contract-derived output root (line 187). -/
def outRootOf (contract : JVal) : String :=
  pyStr (pyOr ((evidenceCfgOf contract).get ("out_dir")) (.str (".codex/out")))

/-- `out_dir = root / out_root / packet_id` (line 190; `.resolve()` is the
identity in this model). -/
def outDirOf (root : Path) (contract : JVal) : Path :=
  root ++ splitPathStr (outRootOf contract) ++ [packetIdOf contract]

def rawDirOf (root : Path) (contract : JVal) : Path :=
  outDirOf root contract ++ ["raw"]

/-- Lines 178-430 of `main`: everything after the repository has been
located and the contract parsed.  Returns the process exit code and the
final filesystem. -/
def harnessBody (env : HEnv) (root : Path) (contract : JVal) (metaGiven : Bool)
    (fs : Fs) : Int × Fs :=
  let packet_id := packetIdOf contract
  let base_ref := pyStr (pyOr (contract.get ("base_ref")) (.str ("")))
  let branch := pyStr (pyOr (contract.get ("branch")) (.str ("")))
  let allowed_paths := (pyList (pyOr (contract.get ("allowed_paths")) (.arr []))).map asStr
  let forbidden_outputs := (pyList (pyOr (contract.get ("forbidden_outputs")) (.arr []))).map asStr
  let budgets := pyOr (contract.get ("budgets")) (.obj [])
  let run_cfg := pyOr (contract.get ("run")) (.obj [])
  let evidence_cfg := evidenceCfgOf contract
  let include_patch := (evidence_cfg.get ("include_git_diff_patch")).truthy
  let out_dir := outDirOf root contract
  let raw_dir := rawDirOf root contract
  let meta : JVal :=
    if metaGiven && env.metaExists then
      match env.metaParse with
      | .ok j => j
      | .error _ => .obj []
    else .obj []
  let wtStr :=
    if (meta.get ("worktree_path")).truthy then pyStr (meta.get ("worktree_path"))
    else if env.wtCandidateExists then strJoin ("/") (root ++ [".codex", ".worktrees", packet_id])
    else strJoin ("/") root
  let cap1 := captureHead fs (raw_dir ++ ["head_before.txt"]) (git_capture env ["rev-parse", "HEAD"])
  let fs := cap1.1
  let head_before := cap1.2
  let cap2 := captureStatus fs (raw_dir ++ ["status_before.txt"]) (git_capture env ["status", "--porcelain"])
  let fs := cap2.1
  let status_before := cap2.2
  let cap3 := captureHead fs (raw_dir ++ ["head_after.txt"]) (git_capture env ["rev-parse", "HEAD"])
  let fs := cap3.1
  let head_after := cap3.2
  let cap4 := captureStatus fs (raw_dir ++ ["status_after.txt"]) (git_capture env ["status", "--porcelain"])
  let fs := cap4.1
  let status_after := cap4.2
  let diff_name_only := stripNonEmptyLines (git_capture env ["diff", "--name-only", head_before])
  let fs := fsSet fs (raw_dir ++ ["diff_name_only.txt"])
    (.str (strJoin ("\n") diff_name_only ++ (if diff_name_only ≠ [] then "\n" else "")))
  let diff_stat := pyRstripNl (git_capture env ["diff", "--stat", head_before])
  let fs := fsSet fs (raw_dir ++ ["diffstat.txt"])
    (.str (diff_stat ++ (if diff_stat ≠ "" then "\n" else "")))
  let show_name_only_after := stripNonEmptyLines
    (git_capture env ["show", "--name-only", "--pretty=format:",
      if head_after ≠ "" then head_after else "HEAD"])
  let fs := fsSet fs (raw_dir ++ ["show_name_only_after.txt"])
    (.str (strJoin ("\n") show_name_only_after ++ (if show_name_only_after ≠ [] then "\n" else "")))
  let fs :=
    if include_patch then
      fsSet fs (raw_dir ++ ["diff_patch.txt"]) (.str (git_capture env ["diff", head_before]))
    else fs
  let status_paths_after := paths_from_porcelain status_after
  let changed_paths := ordSort strLeB (List.eraseDups (diff_name_only ++ status_paths_after))
  let fs := fsSet fs (raw_dir ++ ["changed_paths.txt"])
    (.str (strJoin ("\n") changed_paths ++ (if changed_paths ≠ [] then "\n" else "")))
  let numstat := parseNumstat (pySplitlines (git_capture env ["diff", "--numstat", head_before]))
  let added := numstat.1
  let deleted := numstat.2.1
  let tracked_files_changed := numstat.2.2
  let total_lines := added + deleted
  let changed_files : Int := changed_paths.length
  let violations := harnessViolations allowed_paths forbidden_outputs changed_paths
    status_paths_after budgets changed_files total_lines
  let test_cmd := pyStr (pyOr (run_cfg.get ("test_cmd")) (.str ("")))
  let test_rc := meta.get ("test_rc")
  let tests_exists := (fsGet fs (raw_dir ++ ["tests.txt"])).isSome
  let test_result := if test_cmd = "" then "SKIP" else "UNKNOWN"
  let test_result :=
    if (test_cmd != "") && pyIsInt test_rc then
      (if pyIntVal test_rc = 0 then "PASS" else "FAIL")
    else test_result
  let decision := harnessDecision (meta.get ("decision")) violations
  let reasons := harnessReasons (meta.get ("reasons")) (meta.get ("decision")) violations
  let evidence : JVal := .obj
    [("packet_id", .str packet_id),
     ("generated_at_utc", .str env.nowEv),
     ("repo", .obj [("root", .str (strJoin ("/") root)), ("base_ref", .str base_ref),
       ("heads", .obj [("before", .str head_before), ("after", .str head_after)])]),
     ("worktree", .obj [("path", .str wtStr), ("branch", .str branch)]),
     ("status", .obj [("before", .obj [("porcelain", .arr (status_before.map JVal.str))]),
       ("after", .obj [("porcelain", .arr (status_after.map JVal.str))])]),
     ("diff", .obj [("name_only", .arr (diff_name_only.map JVal.str)), ("stat", .str diff_stat),
       ("changed_files", .int changed_files),
       ("tracked_files_changed", .int tracked_files_changed),
       ("lines_added", .int added), ("lines_deleted", .int deleted)]),
     ("constraints", .obj [("allowed_paths", .arr (allowed_paths.map JVal.str)),
       ("forbidden_outputs", .arr (forbidden_outputs.map JVal.str)),
       ("violations", .arr violations)]),
     ("tests", .obj [("command", .str test_cmd), ("exit_code", test_rc),
       ("result", .str test_result),
       ("raw_path", if tests_exists then .str ("raw/tests.txt") else .null)]),
     ("runner", .obj [("version", meta.get ("runner_version")),
       ("python", meta.get ("python")), ("meta", meta)]),
     ("decision", .str decision),
     ("reasons", .arr reasons),
     ("artifacts", .obj [])]
  let md := mdRender env.dumps packet_id env.nowEv decision base_ref wtStr head_before
    head_after changed_files added deleted test_cmd test_result test_rc violations
  let fs := fsSet fs (out_dir ++ ["evidence.json"]) evidence
  let fs := fsSet fs (out_dir ++ ["evidence.md"]) (.str md)
  (0, finalizePhase env fs out_dir evidence)

/-- `main` of collect_packet_evidence.py (lines 149-430): the two guarded
setup steps write a minimal fallback bundle and exit 2; otherwise the body
runs to completion. -/
def harnessMain (env : HEnv) (metaGiven : Bool) (fs : Fs) : Int × Fs :=
  match env.gitRootRes with
  | .error e =>
    (2, fsSet fs ([".codex", "out", "unknown", "evidence.json"])
      (.obj [("generated_at_utc", .str env.nowEv), ("error", .str e)]))
  | .ok root =>
    match env.contractParse with
    | .error e =>
      (2, fsSet fs (root ++ [".codex", "out", "unknown", "evidence.json"])
        (.obj [("generated_at_utc", .str env.nowEv), ("error", .str e)]))
    | .ok contract => harnessBody env root contract metaGiven fs

/-! ## Concrete scenarios (used by witnesses and counterexamples) -/

/-- The worktree-path string the gate computes, `repo_root/worktree_root/packet_id`. -/
def g0WtPathStr (rootStr : String) (c : JVal) : String :=
  rootStr ++ "/" ++ g0WtRootStr c ++ "/" ++ g0PacketId c

/-- Harness scenario: one observed change `docs/readme.md` against
`allowed_paths=["src/"]` and `budgets.max_changed_lines=10` with a
4-added/8-deleted numstat. -/
def ceGit : List String → Proc := fun args =>
  if args = ["rev-parse", "HEAD"] then ⟨0, "abc123\n", ""⟩
  else if args = ["status", "--porcelain"] then ⟨0, "?? docs/readme.md\n", ""⟩
  else if args = ["diff", "--name-only", "abc123"] then ⟨0, "docs/readme.md\n", ""⟩
  else if args = ["diff", "--numstat", "abc123"] then ⟨0, "4\t8\tdocs/readme.md\n", ""⟩
  else ⟨0, "", ""⟩

def ceContract : JVal := .obj
  [("packet_id", .str ("p1")), ("branch", .str ("work")), ("base_ref", .str ("main")),
   ("allowed_paths", .arr [.str ("src/")]),
   ("budgets", .obj [("max_changed_lines", .int 10)])]

def ceEnv : HEnv :=
  { gitRootRes := .ok ["", "repo"], contractParse := .ok ceContract,
    metaExists := false, metaParse := .ok (.obj []), wtCandidateExists := false,
    git := ceGit, now0 := "T0", nowEv := "T1",
    dumps := fun _ => "", sha := fun _ => "", size := fun _ => 0 }

def ceEvPath : Path := ["", "repo", ".codex", "out", "p1", "evidence.json"]

/-- Harness scenario with pre-existing raw snapshot files recording an older
repository state than the live oracle reports. -/
def ce5Fs : Fs :=
  [(["", "repo", ".codex", "out", "p1", "raw", "head_before.txt"], .str ("oldhead\n")),
   (["", "repo", ".codex", "out", "p1", "raw", "status_before.txt"], .str (" M src/old.py\n")),
   (["", "repo", ".codex", "out", "p1", "raw", "head_after.txt"], .str ("oldafter\n")),
   (["", "repo", ".codex", "out", "p1", "raw", "status_after.txt"], .str (" M src/new.py\n"))]

/-- Gate scenario: the registry lists `/repo/.codex/.worktrees/p1` bound to
`refs/heads/work`, the path exists on disk, every git probe succeeds and
`base_ref` is an ancestor of the worktree head. -/
def g3Porcelain : String :=
  "worktree /repo\nHEAD aaaa\nbranch refs/heads/main\n\nworktree /repo/.codex/.worktrees/p1\nHEAD bbbb\nbranch refs/heads/work\n"

def g3Contract (policy : List (String × JVal)) : JVal := .obj
  [("packet_id", .str ("p1")), ("branch", .str ("work")), ("base_ref", .str ("main")),
   ("worktree_policy", .obj policy)]

def g3Env (c : JVal) : GEnv :=
  { runToplevel := .ok ⟨0, "/repo\n", ""⟩,
    contractExists := true, contractParse := .ok c,
    mkdirEvidenceParent := .ok (),
    runWorktreeList := .ok ⟨0, g3Porcelain, ""⟩,
    wtPathExists := true,
    mkdirWtRoot := .ok (),
    runShowRefBranch := .ok ⟨0, "", ""⟩,
    runWorktreeAdd := .ok ⟨0, "", ""⟩,
    runGitDirWt := .ok ⟨0, "/repo/.git/worktrees/p1\n", ""⟩,
    markerExists := fun _ => false,
    runRevParseBase := .ok ⟨0, "aaaa\n", ""⟩,
    runRevParseHeadWt := .ok ⟨0, "bbbb\n", ""⟩,
    runAbbrevRefWt := .ok ⟨0, "work\n", ""⟩,
    runMergeBase := .ok ⟨0, "aaaa\n", ""⟩,
    runPushDryRun := .ok ⟨0, "", ""⟩,
    writeEvidence := .ok (),
    now := "T" }

/-- Same gate scenario except that the evidence directory cannot be created:
the `mkdir` primitive raises. -/
def g2BadEnv : GEnv :=
  { g3Env (g3Contract [("deny_if_worktree_exists", .bool false)]) with
      mkdirEvidenceParent := .error ("Permission denied") }

/-! ## Helper lemmas -/

theorem fsGet_fsSet_eq (fs : Fs) (p : Path) (v : JVal) :
    fsGet (fsSet fs p v) p = some v := by
  simp [fsGet, fsSet, List.lookup]

theorem lookup_filter_ne {β : Type} (fs : List (Path × β)) (p q : Path) (h : q ≠ p) :
    (fs.filter (fun e => !(e.1 == p))).lookup q = fs.lookup q := by
  induction fs with
  | nil => rfl
  | cons e rest ih =>
    by_cases he : e.1 = p
    · have hqp : (q == p) = false := by simp [h]
      have hqe : (q == e.1) = false := by rw [he]; exact hqp
      simp [List.filter_cons, he, List.lookup, hqe, hqp, ih]
    · have : (e.1 == p) = false := by simp [he]
      simp [List.filter_cons, this, List.lookup, ih]

theorem fsGet_fsSet_ne (fs : Fs) (p q : Path) (v : JVal) (h : q ≠ p) :
    fsGet (fsSet fs p v) q = fsGet fs q := by
  have hq : (q == p) = false := by simp [h]
  simp [fsGet, fsSet, List.lookup, hq, lookup_filter_ne fs p q h]

theorem append_ne_right {α : Type} (d : List α) {a b : List α} (h : a ≠ b) :
    d ++ a ≠ d ++ b :=
  fun hc => h (List.append_cancel_left hc)

theorem captureHead_hit (fs : Fs) (p : Path) (live c : String)
    (h : fsGet fs p = some (.str c)) : captureHead fs p live = (fs, pyStrip c) := by
  simp [captureHead, h, asText]

theorem captureHead_frame (fs : Fs) (p q : Path) (live : String) (h : q ≠ p) :
    fsGet (captureHead fs p live).1 q = fsGet fs q := by
  unfold captureHead
  cases hf : fsGet fs p with
  | some v => simp
  | none => simp [fsGet_fsSet_ne _ _ _ _ h]

theorem captureStatus_hit (fs : Fs) (p : Path) (live c : String)
    (h : fsGet fs p = some (.str c)) :
    captureStatus fs p live = (fs, (pySplitlines c).filter (fun ln => pyStrip ln != "")) := by
  simp [captureStatus, h, asText]

theorem captureStatus_frame (fs : Fs) (p q : Path) (live : String) (h : q ≠ p) :
    fsGet (captureStatus fs p live).1 q = fsGet fs q := by
  unfold captureStatus
  cases hf : fsGet fs p with
  | some v => simp
  | none => simp [fsGet_fsSet_ne _ _ _ _ h]

theorem mem_ordInsert {α : Type} {le : α → α → Bool} {x y : α} {l : List α} :
    y ∈ ordInsert le x l ↔ y = x ∨ y ∈ l := by
  induction l with
  | nil => simp [ordInsert]
  | cons a as ih =>
    simp only [ordInsert]
    split
    · simp
    · simp [ih]
      try tauto

theorem mem_ordSort {α : Type} {le : α → α → Bool} {x : α} {l : List α} :
    x ∈ ordSort le l ↔ x ∈ l := by
  induction l with
  | nil => simp [ordSort]
  | cons a as ih => simp [ordSort, mem_ordInsert, ih]

theorem lookup_any_key {l : List (String × JVal)} {k : String} {w : JVal}
    (h : l.lookup k = some w) : l.any (fun kv => kv.1 = k) = true := by
  induction l with
  | nil => simp [List.lookup] at h
  | cons e rest ih =>
    by_cases he : k = e.1
    · simp [he]
    · have : (k == e.1) = false := by simp [he]
      simp [List.lookup, this] at h
      simp [ih h]

theorem lookup_map_set {l : List (String × JVal)} {k : String} {w x : JVal}
    (h : l.lookup k = some w) :
    (l.map (fun kv => if kv.1 = k then (k, x) else kv)).lookup k = some x := by
  induction l with
  | nil => simp [List.lookup] at h
  | cons e rest ih =>
    obtain ⟨k1, v1⟩ := e
    by_cases he : k1 = k
    · subst he
      simp only [List.map_cons]
      simp [List.lookup]
    · have hk : (k == k1) = false := beq_eq_false_iff_ne.mpr (fun hc => he hc.symm)
      simp only [List.lookup, hk] at h
      simp only [List.map_cons, if_neg he]
      simp [List.lookup, hk, ih h]

theorem get_obj_inv {v w : JVal} {k : String} (h : v.get k = w) (hw : w ≠ .null) :
    ∃ l, v = .obj l ∧ l.lookup k = some w := by
  cases v with
  | obj l =>
    refine ⟨l, rfl, ?_⟩
    simp only [JVal.get] at h
    cases hl : l.lookup k with
    | some x => simp [hl] at h; simp [h]
    | none => simp [hl] at h; exact absurd h.symm hw
  | null => exact absurd h.symm (by simpa [JVal.get] using hw)
  | bool b => exact absurd h.symm (by simpa [JVal.get] using hw)
  | int n => exact absurd h.symm (by simpa [JVal.get] using hw)
  | str s => exact absurd h.symm (by simpa [JVal.get] using hw)
  | arr l => exact absurd h.symm (by simpa [JVal.get] using hw)

theorem objSet_get_eq {v w x : JVal} {k : String} (h : v.get k = w) (hw : w ≠ .null) :
    (objSet v k x).get k = x := by
  obtain ⟨l, rfl, hl⟩ := get_obj_inv h hw
  simp [objSet, lookup_any_key hl, JVal.get, lookup_map_set hl]

theorem exbind_ok {α β : Type} (a : α) (f : α → Except String β) :
    (Except.ok a : Except String α) >>= f = f a := rfl

theorem runIf_ok (b : Bool) (p : Proc) :
    runIf b (.ok p) = .ok (if b then some p else none) := by
  cases b <;> simp [runIf]

theorem runIfU_ok (b : Bool) : runIfU b (.ok ()) = .ok () := by
  cases b <;> simp [runIfU]

theorem denyAll_frozen (calls : List (String × String)) :
    ∀ x : Decision, x.allow = false → denyAll x calls = x := by
  induction calls with
  | nil => intro x _; rfl
  | cons a as ih =>
    intro x hx
    have : x.deny a.1 a.2 = x := by simp [Decision.deny, hx]
    simp only [denyAll, List.foldl_cons]
    rw [show (x.deny a.1 a.2) = x from this]
    exact ih x hx

/-! ## Claim theorems -/

/-- C4: for any sequence of `deny` calls on a Decision that is still
allowing, the first call flips `allow` to false and records exactly that
call's code and message; every subsequent call is a no-op, so `allow`
never reverts and `deny_code`/`message` keep the first denial. -/
theorem decision_first_denial_wins (d : Decision) (c m : String)
    (calls : List (String × String)) (h : d.allow = true) :
    denyAll d ((c, m) :: calls) =
      { allow := false, deny_code := some c, message := some m } := by
  have h1 : d.deny c m = { allow := false, deny_code := some c, message := some m } := by
    simp [Decision.deny, h]
  simp only [denyAll, List.foldl_cons]
  rw [show d.deny (c, m).1 (c, m).2 = _ from h1]
  exact denyAll_frozen calls _ rfl

/-- Witness for C4 at a concrete two-denial sequence. -/
theorem decision_first_denial_wins_witness :
    ({} : Decision).allow = true ∧
      denyAll {} [("A", "a"), ("B", "b")] =
        { allow := false, deny_code := some ("A"), message := some ("a") } :=
  ⟨rfl, decision_first_denial_wins {} ("A") ("a") [("B", "b")] rfl⟩

/-- C9: `normalize_path` drops every leading '.' and '/' character from both
the path and the pattern, so a dotless pattern such as "codex/" matches the
dot-prefixed path ".codex/x", and a dot-prefixed directory cannot be told
apart from its dotless counterpart by either constraint matcher. -/
theorem normalize_path_strips_leading_dots :
    (∀ s : String, normalize_path ⟨'.' :: s.data⟩ = normalize_path s) ∧
    (∀ s : String, normalize_path ⟨'/' :: s.data⟩ = normalize_path s) ∧
    matches_allowed (".codex/x") (["codex/"]) = true ∧
    (∀ (p : String) (pats : List String),
      matches_allowed ⟨'.' :: p.data⟩ pats = matches_allowed p pats ∧
      matches_any ⟨'.' :: p.data⟩ pats = matches_any p pats) ∧
    (∀ (a p : String) (pats : List String),
      matches_allowed p (⟨'.' :: a.data⟩ :: pats) = matches_allowed p (a :: pats) ∧
      matches_any p (⟨'.' :: a.data⟩ :: pats) = matches_any p (a :: pats)) := by
  have hdot : ∀ s : String, normalize_path ⟨'.' :: s.data⟩ = normalize_path s := by
    intro s
    simp [normalize_path, List.dropWhile]
  have hslash : ∀ s : String, normalize_path ⟨'/' :: s.data⟩ = normalize_path s := by
    intro s
    simp [normalize_path, List.dropWhile]
  refine ⟨hdot, hslash, by decide, ?_, ?_⟩
  · intro p pats
    constructor
    · simp [matches_allowed, hdot p]
    · simp [matches_any, hdot p]
  · intro a p pats
    constructor
    · simp [matches_allowed, List.any_cons, hdot a]
    · simp [matches_any, List.any_cons, hdot a]

theorem expure_ok {β : Type} (a : β) : (pure a : Except String β) = .ok a := rfl

/-- C2 (amended): as long as no filesystem/process-spawn primitive raises a
Python-level exception, the gate always runs to the evidence write and
returns: the result is `Except.ok`, carrying the record it wrote, the exit
code is 0 or 2, and it is 0 exactly when the record's decision is ALLOW.
Denials and failed git commands (nonzero exit codes) never prevent this. -/
theorem g0_no_raise_writes_evidence (env : GEnv) (args : GArgs) (h : env.noRaise) :
    ∃ out : G0Out, g0main env args = .ok out ∧
      (out.exitCode = 0 ∨ out.exitCode = 2) ∧
      (out.exitCode = 0 ↔ out.evidence.get ("decision") = .str ("ALLOW")) := by
  obtain ⟨⟨p1, h1⟩, h2, ⟨p3, h3⟩, h4, ⟨p5, h5⟩, ⟨p6, h6⟩, ⟨p7, h7⟩, ⟨p8, h8⟩,
    ⟨p9, h9⟩, ⟨p10, h10⟩, ⟨p11, h11⟩, ⟨p12, h12⟩, h13⟩ := h
  have key : ∃ (b : Bool) (out : G0Out), g0main env args = .ok out ∧
      out.exitCode = (if b then 0 else 2) ∧
      out.evidence.get ("decision") = .str (if b then "ALLOW" else "DENY") := by
    simp only [g0main, h1, h2, h3, h4, h5, h6, h7, h8, h9, h10, h11, h12, h13,
      runIf_ok, runIfU_ok, exbind_ok, expure_ok]
    exact ⟨_, _, rfl, rfl, by simp [g0Evidence, JVal.get, List.lookup]⟩
  obtain ⟨b, out, hmain, hexit, hdec⟩ := key
  refine ⟨out, hmain, ?_, ?_⟩
  · cases b <;> simp [hexit]
  · cases b <;> simp [hexit, hdec]

/-- Witness for C2 (amended) at the concrete reuse scenario. -/
theorem g0_no_raise_writes_evidence_witness :
    ∃ out : G0Out,
      g0main (g3Env (g3Contract [("deny_if_worktree_exists", .bool false)])) ⟨"c.json"⟩
        = .ok out ∧
      (out.exitCode = 0 ∨ out.exitCode = 2) ∧
      (out.exitCode = 0 ↔ out.evidence.get ("decision") = .str ("ALLOW")) :=
  g0_no_raise_writes_evidence _ _
    ⟨⟨_, rfl⟩, rfl, ⟨_, rfl⟩, rfl, ⟨_, rfl⟩, ⟨_, rfl⟩, ⟨_, rfl⟩, ⟨_, rfl⟩,
     ⟨_, rfl⟩, ⟨_, rfl⟩, ⟨_, rfl⟩, ⟨_, rfl⟩, rfl⟩

/-- C2 counterexample: when the `mkdir` for the evidence directory raises
(e.g. `PermissionError`), the exception escapes the gate's `main` — the run
ends in `Except.error`, so no evidence record is written and the claim that
no uncaught exception escapes the boundary fails on the code. -/
theorem g0_raise_escapes_counterexample :
    g0main g2BadEnv ⟨"c.json"⟩ = .error ("Permission denied") := by rfl

theorem lookup_contains_key {β : Type} {l : List (String × β)} {k : String} {v : β}
    (h : l.lookup k = some v) : (l.map (fun e => e.1)).contains k = true := by
  induction l with
  | nil => simp [List.lookup] at h
  | cons e rest ih =>
    cases he : (k == e.1) with
    | true =>
      show List.elem k (e.1 :: rest.map (fun e => e.1)) = true
      simp [List.elem, he]
    | false =>
      simp only [List.lookup, he] at h
      show List.elem k (e.1 :: rest.map (fun e => e.1)) = true
      simp only [List.elem, he]
      exact ih h

theorem g0Fields_some_ok {c : JVal} (err : Option String)
    (hpid : g0PacketId c ≠ "") (hbr : g0Branch c ≠ "") (hbase : g0BaseRef c ≠ "") :
    g0Fields (some c) err =
      (g0PacketId c, g0Branch c, g0BaseRef c, (c.get ("github_ops_required")).truthy,
        g0WtRootStr c, g0DenyIfExists c, {}) := by
  simp [g0Fields, hpid, hbr, hbase]

theorem g0RepoCheck_some (d : Decision) (r : String) : g0RepoCheck d (some r) = d := by
  simp [g0RepoCheck]

theorem g0Collision_reuse {w : String} {reg : List String}
    (hc : reg.contains w = true) :
    g0Collision {} (some w) true false reg = ({}, false) := by
  simp [g0Collision, hc]
  exact List.mem_of_elem_eq_true hc

theorem g0Reuse_match {w branch : String} {wtList : List (String × List (String × String))}
    {entry : List (String × String)}
    (hl : wtList.lookup w = some entry)
    (hb : worktree_branch entry = some branch) :
    g0Reuse {} (some w) true wtList branch = ({}, true, "") := by
  simp [g0Reuse, hl, hb]

theorem g0CreateRes_none (d : Decision) : g0CreateRes d none = (d, false) := rfl

theorem g0OpDeny_noProg (d : Decision) (g : Bool) (gd : Option String) :
    g0OpDeny d g gd false = d := by
  simp [g0OpDeny]

theorem g0BaseSha_ok {p : Proc} (h : p.rc = 0) : g0BaseSha (some p) = pyStrip p.out := by
  simp [g0BaseSha, h]

theorem g0Ancestor_true {p : Proc} {s : String} (h : p.rc = 0) (hs : pyStrip p.out = s) :
    g0Ancestor (some p) s = some true := by
  simp [g0Ancestor, h, hs]

theorem g0AncDeny_true (d : Decision) (g : Bool) : g0AncDeny d g (some true) = d := by
  simp [g0AncDeny]

theorem g0PushDeny_rc0 {p : Proc} (d : Decision) (req : Bool) (h : p.rc = 0) :
    g0PushDeny d (some p) req = d := by
  simp [g0PushDeny, h]

/-- C3 (amended): when the contract's worktree path already exists, is
listed in the live registry and is bound to the contract's branch, *and*
the policy sets `deny_if_worktree_exists=false`, re-invoking the gate
yields `worktree_reused=true`, `worktree_created=false` and
`decision=ALLOW` (absent other violations, here: no unfinished git
operation, an ancestor `base_ref` and a passing push probe). -/
theorem g0_reuse_idempotent (env : GEnv) (args : GArgs) (c : JVal)
    (p1 p3 p7 p8 p9 p10 p11 p12 : Proc) (entry : List (String × String))
    (h1 : env.runToplevel = .ok p1) (h1rc : p1.rc = 0)
    (hce : env.contractExists = true) (hcp : env.contractParse = .ok c)
    (h2 : env.mkdirEvidenceParent = .ok ())
    (h3 : env.runWorktreeList = .ok p3) (h3rc : p3.rc = 0)
    (h4 : env.mkdirWtRoot = .ok ())
    (h5 : ∃ p, env.runShowRefBranch = .ok p) (h6 : ∃ p, env.runWorktreeAdd = .ok p)
    (h7 : env.runGitDirWt = .ok p7)
    (h8 : env.runRevParseBase = .ok p8) (h8rc : p8.rc = 0)
    (h9 : env.runRevParseHeadWt = .ok p9) (h10 : env.runAbbrevRefWt = .ok p10)
    (h11 : env.runMergeBase = .ok p11) (h11rc : p11.rc = 0)
    (h12 : env.runPushDryRun = .ok p12) (h12rc : p12.rc = 0)
    (h13 : env.writeEvidence = .ok ())
    (hpid : g0PacketId c ≠ "") (hbr : g0Branch c ≠ "") (hbase : g0BaseRef c ≠ "")
    (hdex : g0DenyIfExists c = false)
    (hex : env.wtPathExists = true)
    (hreg : (parse_worktree_list p3.out).lookup (g0WtPathStr (pyStrip p1.out) c) = some entry)
    (hbranch : worktree_branch entry = some (g0Branch c))
    (hop : git_op_in_progress env.markerExists = false)
    (hsha : pyStrip p8.out ≠ "")
    (hmb : pyStrip p11.out = pyStrip p8.out) :
    ∃ out : G0Out, g0main env args = .ok out ∧
      out.evidence.get ("worktree_reused") = .bool true ∧
      out.evidence.get ("worktree_created") = .bool false ∧
      out.evidence.get ("decision") = .str ("ALLOW") ∧
      out.exitCode = 0 := by
  obtain ⟨p5, h5⟩ := h5
  obtain ⟨p6, h6⟩ := h6
  have hcont : ((parse_worktree_list p3.out).map (fun e => e.1)).contains
      (g0WtPathStr (pyStrip p1.out) c) = true := lookup_contains_key hreg
  simp only [g0WtPathStr] at hreg hcont
  simp only [g0main, h1, h2, h3, h4, h5, h6, h7, h8, h9, h10, h11, h12, h13,
    runIf_ok, runIfU_ok, exbind_ok, expure_ok]
  simp [safe_read_json, hce, hcp, h1rc, h3rc, hex, hdex, hop, hsha, hmb, hreg, hcont,
    g0Fields_some_ok _ hpid hbr hbase, g0RepoCheck_some, g0Collision_reuse hcont,
    g0Reuse_match hreg hbranch, g0CreateRes_none, g0OpDeny_noProg,
    g0BaseSha_ok h8rc, g0Ancestor_true h11rc hmb, g0AncDeny_true,
    g0PushDeny_rc0 _ _ h12rc, bne_iff_ne, hpid, hbr, hbase]
  refine ⟨?_, ?_, ?_⟩ <;> simp [g0Evidence, JVal.get, List.lookup]

/-- Witness for C3 (amended) on the concrete registry scenario. -/
theorem g0_reuse_idempotent_witness :
    ∃ out : G0Out,
      g0main (g3Env (g3Contract [("deny_if_worktree_exists", .bool false)])) ⟨"c.json"⟩
        = .ok out ∧
      out.evidence.get ("worktree_reused") = .bool true ∧
      out.evidence.get ("worktree_created") = .bool false ∧
      out.evidence.get ("decision") = .str ("ALLOW") ∧
      out.exitCode = 0 :=
  g0_reuse_idempotent _ _ (g3Contract [("deny_if_worktree_exists", .bool false)])
    ⟨0, "/repo\n", ""⟩ ⟨0, g3Porcelain, ""⟩ ⟨0, "/repo/.git/worktrees/p1\n", ""⟩
    ⟨0, "aaaa\n", ""⟩ ⟨0, "bbbb\n", ""⟩ ⟨0, "work\n", ""⟩ ⟨0, "aaaa\n", ""⟩ ⟨0, "", ""⟩
    [("path", "/repo/.codex/.worktrees/p1"), ("HEAD", "bbbb"), ("branch", "refs/heads/work")]
    rfl rfl rfl rfl rfl rfl rfl rfl ⟨_, rfl⟩ ⟨_, rfl⟩ rfl rfl rfl rfl rfl rfl rfl rfl
    rfl rfl (by decide) (by decide) (by decide) rfl rfl rfl rfl rfl (by decide) rfl

/-- C1 (amended): once the repository is located and the contract parses,
the harness's exit code is 0 regardless of the bundle's final decision
(including DENY); exit code 2 is returned only for the two guarded setup
failures (repository not found, contract unreadable/unparsable). -/
theorem harness_exit_zero_after_setup (env : HEnv) (metaGiven : Bool) (fs : Fs)
    (root : Path) (contract : JVal)
    (hroot : env.gitRootRes = .ok root) (hc : env.contractParse = .ok contract) :
    (harnessMain env metaGiven fs).1 = 0 := by
  simp only [harnessMain, hroot, hc]
  simp [harnessBody]

/-- Witness for C1 (amended) at the concrete DENY scenario. -/
theorem harness_exit_zero_after_setup_witness :
    (harnessMain ceEnv false []).1 = 0 :=
  harness_exit_zero_after_setup ceEnv false [] _ _ rfl rfl

/-- C1 counterexample: a run that locates the repository, parses the
contract and produces a bundle whose decision is DENY (one disallowed path
plus an exceeded line budget) still exits 0 — refuting exit 0 iff ALLOW. -/
theorem harness_exit_zero_on_deny_counterexample :
    (harnessMain ceEnv false []).1 = 0 ∧
      ((fsGet (harnessMain ceEnv false []).2 ceEvPath).getD .null).get ("decision")
        = .str ("DENY") :=
  ⟨rfl, rfl⟩

/-- C3 counterexample: the very same registered, branch-matching worktree
with the policy field absent — the source defaults
`deny_if_worktree_exists` to True (line 153) — is denied
`WORKTREE_COLLISION` with `worktree_reused=false` and exit code 2,
refuting the claim as stated for such contracts. -/
theorem g0_reuse_collision_counterexample :
    ∃ out : G0Out, g0main (g3Env (g3Contract [])) ⟨"c.json"⟩ = .ok out ∧
      out.evidence.get ("decision") = .str ("DENY") ∧
      out.evidence.get ("deny_code") = .str ("WORKTREE_COLLISION") ∧
      out.evidence.get ("worktree_reused") = .bool false ∧
      out.exitCode = 2 :=
  ⟨_, rfl, rfl, rfl, rfl, rfl⟩

/-- C6: the harness decision is authoritative (lines 330-340): with any
violation present the final decision is DENY; if the run-metadata record
declared ALLOW despite violations, "constraint_violations" is appended to
its reasons; absent violations a declared ALLOW/DENY is honored, and a
missing declaration defaults to ALLOW. -/
theorem harness_decision_authoritative (mdec mreasons : JVal) (violations : List JVal) :
    (violations ≠ [] → harnessDecision mdec violations = "DENY") ∧
    (violations ≠ [] → mdec = .str ("ALLOW") →
      harnessReasons mreasons mdec violations
        = reasonsBase mreasons ++ [.str ("constraint_violations")]) ∧
    (violations = [] → (mdec = .str ("ALLOW") ∨ mdec = .str ("DENY")) →
      harnessDecision mdec violations = pyStr mdec) ∧
    (violations = [] → mdec = .null → harnessDecision mdec violations = "ALLOW") := by
  refine ⟨?_, ?_, ?_, ?_⟩
  · intro h
    cases violations with
    | nil => exact absurd rfl h
    | cons v vs => simp [harnessDecision]
  · intro h hdec
    subst hdec
    cases violations with
    | nil => exact absurd rfl h
    | cons v vs => simp [harnessReasons, isStrEq]
  · intro h hdec
    subst h
    rcases hdec with hd | hd <;> subst hd <;> simp [harnessDecision, isStrEq, pyStr]
  · intro h hm
    subst h
    subst hm
    simp [harnessDecision, isStrEq]

/-- Witness for C6 at a concrete violating run-metadata record. -/
theorem harness_decision_authoritative_witness :
    ([JVal.obj []] ≠ ([] : List JVal)) ∧
      harnessDecision (.str ("ALLOW")) [.obj []] = "DENY" ∧
      harnessReasons (.arr [.str ("r1")]) (.str ("ALLOW")) [.obj []]
        = reasonsBase (.arr [.str ("r1")]) ++ [.str ("constraint_violations")] :=
  ⟨by simp,
   (harness_decision_authoritative (.str ("ALLOW")) (.arr [.str ("r1")]) [.obj []]).1 (by simp),
   (harness_decision_authoritative (.str ("ALLOW")) (.arr [.str ("r1")]) [.obj []]).2.1
     (by simp) rfl⟩

/-- C7: when allowed_paths is non-empty, the harness records a
DIFF_OUTSIDE_ALLOWED_PATHS violation whose bad_paths are exactly the
changed paths matching no allowed pattern (lines 96-107 and 297-300);
concretely, allowed_paths=["src/"] with an observed change to
docs/readme.md produces bad_paths=["docs/readme.md"] and an overall DENY
bundle while the matching src/ change never does. -/
theorem harness_allowed_paths_violation :
    (∀ (allowed forbidden changed sap : List String) (budgets : JVal) (cf tl : Int),
      allowed ≠ [] →
      changed.filter (fun p => !(matches_allowed p allowed)) ≠ [] →
      (JVal.obj [("code", .str ("DIFF_OUTSIDE_ALLOWED_PATHS")),
        ("details", .obj [("bad_paths",
          .arr ((changed.filter (fun p => !(matches_allowed p allowed))).map JVal.str))])])
        ∈ harnessViolations allowed forbidden changed sap budgets cf tl) ∧
    ((((fsGet (harnessMain ceEnv false []).2 ceEvPath).getD .null).get
        ("constraints")).get ("violations")
      = .arr [.obj [("code", .str ("DIFF_OUTSIDE_ALLOWED_PATHS")),
                    ("details", .obj [("bad_paths", .arr [.str ("docs/readme.md")])])],
              .obj [("code", .str ("DIFF_BUDGET_EXCEEDED")),
                    ("details", .obj [("violations",
                      .arr [.arr [.str ("max_changed_lines"), .int 12, .int 10]])])]]) ∧
    ((fsGet (harnessMain ceEnv false []).2 ceEvPath).getD .null).get ("decision")
      = .str ("DENY") := by
  refine ⟨?_, rfl, rfl⟩
  intro allowed forbidden changed sap budgets cf tl h1 h2
  simp [harnessViolations, h1, h2]

/-- Witness for C7's general conjunct at the concrete scenario. -/
theorem harness_allowed_paths_violation_witness :
    ((["src/"] : List String) ≠ []) ∧
      (["docs/readme.md"].filter (fun p => !(matches_allowed p ["src/"])) ≠ []) ∧
      (JVal.obj [("code", .str ("DIFF_OUTSIDE_ALLOWED_PATHS")),
        ("details", .obj [("bad_paths",
          .arr ((["docs/readme.md"].filter
            (fun p => !(matches_allowed p ["src/"]))).map JVal.str))])])
        ∈ harnessViolations ["src/"] [] ["docs/readme.md"] ["docs/readme.md"]
            (.obj [("max_changed_lines", .int 10)]) 1 12 :=
  ⟨by decide, by decide,
   harness_allowed_paths_violation.1 ["src/"] [] ["docs/readme.md"] ["docs/readme.md"]
     (.obj [("max_changed_lines", .int 10)]) 1 12 (by decide) (by decide)⟩

/-- C8: a configured integer max_changed_lines budget exceeded by
added+deleted lines yields a DIFF_BUDGET_EXCEEDED violation listing
["max_changed_lines", observed, limit] (and max_changed_files likewise
against the changed-file count, lines 312-320); the numstat parser turns a
"4\t8\t<file>" summary into 4 added and 8 deleted, and the concrete run
with limit 10 lists ["max_changed_lines", 12, 10] inside a DENY bundle. -/
theorem harness_budget_violation :
    (∀ (allowed forbidden changed sap : List String) (budgets : JVal) (cf tl : Int),
      pyIsInt (budgets.get ("max_changed_lines")) = true →
      tl > pyIntVal (budgets.get ("max_changed_lines")) →
      ∃ bv : List JVal,
        (JVal.obj [("code", .str ("DIFF_BUDGET_EXCEEDED")),
          ("details", .obj [("violations", .arr bv)])])
          ∈ harnessViolations allowed forbidden changed sap budgets cf tl ∧
        (JVal.arr [.str ("max_changed_lines"), .int tl,
          .int (pyIntVal (budgets.get ("max_changed_lines")))]) ∈ bv) ∧
    (∀ (allowed forbidden changed sap : List String) (budgets : JVal) (cf tl : Int),
      pyIsInt (budgets.get ("max_changed_files")) = true →
      cf > pyIntVal (budgets.get ("max_changed_files")) →
      ∃ bv : List JVal,
        (JVal.obj [("code", .str ("DIFF_BUDGET_EXCEEDED")),
          ("details", .obj [("violations", .arr bv)])])
          ∈ harnessViolations allowed forbidden changed sap budgets cf tl ∧
        (JVal.arr [.str ("max_changed_files"), .int cf,
          .int (pyIntVal (budgets.get ("max_changed_files")))]) ∈ bv) ∧
    parseNumstat ["4\t8\tdocs/readme.md"] = (4, 8, 1) ∧
    (JVal.obj [("code", .str ("DIFF_BUDGET_EXCEEDED")),
      ("details", .obj [("violations",
        .arr [.arr [.str ("max_changed_lines"), .int 12, .int 10]])])])
      ∈ harnessViolations ["src/"] [] ["docs/readme.md"] ["docs/readme.md"]
          (.obj [("max_changed_lines", .int 10)]) 1 12 := by
  refine ⟨?_, ?_, by decide, ?mem⟩
  case mem =>
    rw [show harnessViolations ["src/"] [] ["docs/readme.md"] ["docs/readme.md"]
        (.obj [("max_changed_lines", .int 10)]) 1 12 =
        [JVal.obj [("code", .str ("DIFF_OUTSIDE_ALLOWED_PATHS")),
          ("details", .obj [("bad_paths", .arr [.str ("docs/readme.md")])])],
         JVal.obj [("code", .str ("DIFF_BUDGET_EXCEEDED")),
          ("details", .obj [("violations",
            .arr [.arr [.str ("max_changed_lines"), .int 12, .int 10]])])]] from rfl]
    exact List.Mem.tail _ (List.Mem.head _)
  · intro allowed forbidden changed sap budgets cf tl hint hgt
    refine ⟨(if pyIsInt (budgets.get ("max_changed_files"))
          && decide (cf > pyIntVal (budgets.get ("max_changed_files"))) then
        [JVal.arr [.str ("max_changed_files"), .int cf,
          .int (pyIntVal (budgets.get ("max_changed_files")))]]
      else []) ++
      [JVal.arr [.str ("max_changed_lines"), .int tl,
        .int (pyIntVal (budgets.get ("max_changed_lines")))]], ?_, ?_⟩
    · simp [harnessViolations, hint, hgt]
    · simp
  · intro allowed forbidden changed sap budgets cf tl hint hgt
    refine ⟨[JVal.arr [.str ("max_changed_files"), .int cf,
        .int (pyIntVal (budgets.get ("max_changed_files")))]] ++
      (if pyIsInt (budgets.get ("max_changed_lines"))
          && decide (tl > pyIntVal (budgets.get ("max_changed_lines"))) then
        [JVal.arr [.str ("max_changed_lines"), .int tl,
          .int (pyIntVal (budgets.get ("max_changed_lines")))]]
      else []), ?_, ?_⟩
    · simp [harnessViolations, hint, hgt]
    · simp

/-- Witness for C8's budget conjuncts at the concrete limits. -/
theorem harness_budget_violation_witness :
    pyIsInt ((JVal.obj [("max_changed_lines", .int 10)]).get ("max_changed_lines")) = true ∧
      (12 : Int) > pyIntVal ((JVal.obj [("max_changed_lines", .int 10)]).get
        ("max_changed_lines")) ∧
      ∃ bv : List JVal,
        (JVal.obj [("code", .str ("DIFF_BUDGET_EXCEEDED")),
          ("details", .obj [("violations", .arr bv)])])
          ∈ harnessViolations ["src/"] [] ["docs/readme.md"] ["docs/readme.md"]
              (.obj [("max_changed_lines", .int 10)]) 1 12 ∧
        (JVal.arr [.str ("max_changed_lines"), .int 12,
          .int (pyIntVal ((JVal.obj [("max_changed_lines", .int 10)]).get
            ("max_changed_lines")))]) ∈ bv :=
  ⟨by decide, by decide,
   harness_budget_violation.1 ["src/"] [] ["docs/readme.md"] ["docs/readme.md"]
     (.obj [("max_changed_lines", .int 10)]) 1 12 (by decide) (by decide)⟩

theorem rawpair_ne_of_beq_false {a b : String} (h : (b == a) = false) :
    (["raw", b] : List String) ≠ ["raw", a] := by
  simp only [ne_eq, List.cons.injEq, true_and, and_true]
  intro hc
  simp [hc] at h

theorem fsGet_set_raw_raw {fs : Fs} {od : Path} {v : JVal} {a b : String}
    (h : (b == a) = false) :
    fsGet (fsSet fs (od ++ ["raw", a]) v) (od ++ ["raw", b]) =
      fsGet fs (od ++ ["raw", b]) :=
  fsGet_fsSet_ne _ _ _ _ (append_ne_right _ (rawpair_ne_of_beq_false h))

theorem raw_ne_out (od : Path) (a b : String) :
    od ++ ["raw", b] ≠ od ++ [a] := by
  intro hc
  have := List.append_cancel_left hc
  simp at this

theorem fsGet_set_out_raw {fs : Fs} {od : Path} {v : JVal} {a b : String} :
    fsGet (fsSet fs (od ++ [a]) v) (od ++ ["raw", b]) =
      fsGet fs (od ++ ["raw", b]) :=
  fsGet_fsSet_ne _ _ _ _ (raw_ne_out od a b)

theorem fsGet_ite_set {cond : Bool} {fs : Fs} {p q : Path} {v : JVal} (h : q ≠ p) :
    fsGet (if cond then fsSet fs p v else fs) q = fsGet fs q := by
  cases cond <;> simp [fsGet_fsSet_ne _ _ _ _ h]

theorem fsGet_ite_set_raw_raw {cond : Bool} {fs : Fs} {od : Path} {v : JVal}
    {a b : String} (h : (b == a) = false) :
    fsGet (if cond then fsSet fs (od ++ ["raw", a]) v else fs) (od ++ ["raw", b]) =
      fsGet fs (od ++ ["raw", b]) :=
  fsGet_ite_set (append_ne_right _ (rawpair_ne_of_beq_false h))

theorem captureHead_frame_raw {fs : Fs} {od : Path} {live : String} {a b : String}
    (h : (b == a) = false) :
    fsGet (captureHead fs (od ++ ["raw", a]) live).1 (od ++ ["raw", b]) =
      fsGet fs (od ++ ["raw", b]) :=
  captureHead_frame _ _ _ _ (append_ne_right _ (rawpair_ne_of_beq_false h))

theorem captureStatus_frame_raw {fs : Fs} {od : Path} {live : String} {a b : String}
    (h : (b == a) = false) :
    fsGet (captureStatus fs (od ++ ["raw", a]) live).1 (od ++ ["raw", b]) =
      fsGet fs (od ++ ["raw", b]) :=
  captureStatus_frame _ _ _ _ (append_ne_right _ (rawpair_ne_of_beq_false h))

theorem finalizePhase_frame_raw {env : HEnv} {fs : Fs} {od : Path} {ev : JVal}
    {b : String} :
    fsGet (finalizePhase env fs od ev) (od ++ ["raw", b]) =
      fsGet fs (od ++ ["raw", b]) := by
  simp [finalizePhase, fsGet_set_out_raw]

/-- C5: a pre-existing raw snapshot file (head_before, status_before,
head_after or status_after) is reused: the harness leaves its stored
content untouched no matter what the live repository reports, and the
values entering the evidence bundle are parsed from the stored content
(strip for heads, non-blank line split for status listings), not from a
live capture. -/
theorem harness_reuses_existing_raw_snapshots (env : HEnv) (metaGiven : Bool) (fs : Fs)
    (root : Path) (contract : JVal)
    (hroot : env.gitRootRes = .ok root) (hc : env.contractParse = .ok contract) :
    (∀ c, fsGet fs (rawDirOf root contract ++ ["head_before.txt"]) = some (.str c) →
      fsGet (harnessMain env metaGiven fs).2 (rawDirOf root contract ++ ["head_before.txt"])
          = some (.str c) ∧
        ((((fsGet (harnessMain env metaGiven fs).2
            (outDirOf root contract ++ ["evidence.json"])).getD .null).get ("repo")).get
              ("heads")).get ("before") = .str (pyStrip c)) ∧
    (∀ c, fsGet fs (rawDirOf root contract ++ ["status_before.txt"]) = some (.str c) →
      fsGet (harnessMain env metaGiven fs).2 (rawDirOf root contract ++ ["status_before.txt"])
          = some (.str c) ∧
        ((((fsGet (harnessMain env metaGiven fs).2
            (outDirOf root contract ++ ["evidence.json"])).getD .null).get ("status")).get
              ("before")).get ("porcelain")
          = .arr (((pySplitlines c).filter (fun ln => pyStrip ln != "")).map JVal.str)) ∧
    (∀ c, fsGet fs (rawDirOf root contract ++ ["head_after.txt"]) = some (.str c) →
      fsGet (harnessMain env metaGiven fs).2 (rawDirOf root contract ++ ["head_after.txt"])
          = some (.str c)) ∧
    (∀ c, fsGet fs (rawDirOf root contract ++ ["status_after.txt"]) = some (.str c) →
      fsGet (harnessMain env metaGiven fs).2 (rawDirOf root contract ++ ["status_after.txt"])
          = some (.str c)) := by
  simp only [harnessMain, hroot, hc]
  refine ⟨?_, ?_, ?_, ?_⟩
  · intro c hfile
    simp only [rawDirOf, List.append_assoc, List.cons_append, List.nil_append] at hfile
    constructor
    · simp only [harnessBody, rawDirOf]
      simp [finalizePhase_frame_raw, fsGet_set_out_raw, fsGet_set_raw_raw,
        fsGet_ite_set_raw_raw, captureHead_frame_raw, captureStatus_frame_raw,
        captureHead_hit, hfile]
    · simp only [harnessBody, rawDirOf]
      simp [finalizePhase, fsGet_fsSet_eq, captureHead_hit, hfile,
        objSet, artifactsIndex, JVal.get, List.lookup]
  · intro c hfile
    simp only [rawDirOf, List.append_assoc, List.cons_append, List.nil_append] at hfile
    constructor
    · simp only [harnessBody, rawDirOf]
      simp [finalizePhase_frame_raw, fsGet_set_out_raw, fsGet_set_raw_raw,
        fsGet_ite_set_raw_raw, captureHead_frame_raw, captureStatus_frame_raw,
        captureStatus_hit, hfile]
    · simp only [harnessBody, rawDirOf]
      simp [finalizePhase, fsGet_fsSet_eq, captureHead_frame_raw, captureStatus_hit,
        hfile, objSet, artifactsIndex, JVal.get, List.lookup]
  · intro c hfile
    simp only [rawDirOf, List.append_assoc, List.cons_append, List.nil_append] at hfile
    simp only [harnessBody, rawDirOf]
    simp [finalizePhase_frame_raw, fsGet_set_out_raw, fsGet_set_raw_raw,
      fsGet_ite_set_raw_raw, captureHead_frame_raw, captureStatus_frame_raw,
      captureHead_hit, hfile]
  · intro c hfile
    simp only [rawDirOf, List.append_assoc, List.cons_append, List.nil_append] at hfile
    simp only [harnessBody, rawDirOf]
    simp [finalizePhase_frame_raw, fsGet_set_out_raw, fsGet_set_raw_raw,
      fsGet_ite_set_raw_raw, captureHead_frame_raw, captureStatus_frame_raw,
      captureStatus_hit, hfile]

/-- Witness for C5: a harness run over pre-existing snapshot files keeps
their stale contents and reports the stale head, although the live oracle
reports a different repository state. -/
theorem harness_reuses_existing_raw_snapshots_witness :
    fsGet ce5Fs (rawDirOf ["", "repo"] ceContract ++ ["head_before.txt"])
        = some (.str ("oldhead\n")) ∧
      fsGet (harnessMain ceEnv false ce5Fs).2
          (rawDirOf ["", "repo"] ceContract ++ ["head_before.txt"])
        = some (.str ("oldhead\n")) ∧
      ((((fsGet (harnessMain ceEnv false ce5Fs).2
          (outDirOf ["", "repo"] ceContract ++ ["evidence.json"])).getD .null).get
            ("repo")).get ("heads")).get ("before") = .str (pyStrip ("oldhead\n")) :=
  ⟨rfl,
   ((harness_reuses_existing_raw_snapshots ceEnv false ce5Fs _ _ rfl rfl).1
     ("oldhead\n") rfl).1,
   ((harness_reuses_existing_raw_snapshots ceEnv false ce5Fs _ _ rfl rfl).1
     ("oldhead\n") rfl).2⟩

theorem isPrefixOf_append_self (l r : List String) : l.isPrefixOf (l ++ r) = true := by
  induction l with
  | nil => simp [List.isPrefixOf]
  | cons a as ih => simp [List.isPrefixOf, ih]

theorem contains_append (a : String) (l1 l2 : List String) :
    (l1 ++ l2).contains a = (l1.contains a || l2.contains a) := by
  induction l1 with
  | nil => simp [List.contains]
  | cons x xs ih =>
    show List.elem a (x :: (xs ++ l2)) = _
    cases hx : (a == x) with
    | true => simp [List.elem, List.contains, hx]
    | false =>
      simp only [List.elem, hx]
      simp [List.contains, List.elem, hx, ih]

theorem objSet_artifacts_ne {ev : JVal} (hart : ev.get ("artifacts") = .obj [])
    (raws : List String) : objSet ev ("artifacts") (artifactsIndex raws) ≠ ev := by
  intro heq
  have h2 := congrArg (fun v => JVal.get v ("artifacts")) heq
  simp only at h2
  rw [objSet_get_eq hart (fun h => JVal.noConfusion h)] at h2
  rw [hart] at h2
  simp [artifactsIndex] at h2

/-- C10: in a successful run, evidence.json is serialized a second time
after manifest.json and manifest.sha256 exist, to embed the final artifacts
index; the sha256 and size the manifest records for evidence.json are those
of the intermediate document (written with an empty artifacts object),
which differs from the final evidence.json left on disk — so for any
injective digest (sha256 being collision-free in practice) the recorded
hash is not the final file's hash. -/
theorem manifest_hashes_intermediate_evidence (env : HEnv) (fs0 : Fs) (out_dir : Path)
    (ev : JVal) (md : String)
    (hart : ev.get ("artifacts") = .obj [])
    (hgit : out_dir.contains (".git") = false)
    (hclean : ∀ q v, (q, v) ∈ fs0 →
      strJoin ("/") (q.drop out_dir.length) ≠ "evidence.json") :
    ∃ (raws : List String) (files : List JVal),
      fsGet (finalizePhase env
          (fsSet (fsSet fs0 (out_dir ++ ["evidence.json"]) ev)
            (out_dir ++ ["evidence.md"]) (.str md)) out_dir ev)
          (out_dir ++ ["evidence.json"])
        = some (objSet ev ("artifacts") (artifactsIndex raws)) ∧
      objSet ev ("artifacts") (artifactsIndex raws) ≠ ev ∧
      (Function.Injective env.sha →
        env.sha (objSet ev ("artifacts") (artifactsIndex raws)) ≠ env.sha ev) ∧
      fsGet (finalizePhase env
          (fsSet (fsSet fs0 (out_dir ++ ["evidence.json"]) ev)
            (out_dir ++ ["evidence.md"]) (.str md)) out_dir ev)
          (out_dir ++ ["manifest.json"])
        = some (.obj [("generated_at_utc", .str env.now0), ("files", .arr files)]) ∧
      (JVal.obj [("path", .str ("evidence.json")), ("sha256", .str (env.sha ev)),
        ("size", .int (env.size ev))]) ∈ files ∧
      (∀ e ∈ files, e.get ("path") = .str ("evidence.json") →
        e.get ("sha256") = .str (env.sha ev) ∧ e.get ("size") = .int (env.size ev)) := by
  have hfs2 : ∃ fs2 : Fs, fs2 = fsSet (fsSet fs0 (out_dir ++ ["evidence.json"]) ev)
      (out_dir ++ ["evidence.md"]) (.str md) := ⟨_, rfl⟩
  obtain ⟨fs2, hfs2⟩ := hfs2
  rw [← hfs2]
  have hraws : fsGet (finalizePhase env fs2 out_dir ev) (out_dir ++ ["evidence.json"])
      = some (objSet ev ("artifacts") (artifactsIndex (ordSort strLeB (rawNames
          (fsSet (fsSet fs2 (out_dir ++ ["manifest.json"])
              (.obj [("generated_at_utc", .str env.now0),
                     ("files", .arr (manifestFiles env fs2 out_dir))]))
            (out_dir ++ ["manifest.sha256"])
            (.str (env.sha (.obj [("generated_at_utc", .str env.now0),
                     ("files", .arr (manifestFiles env fs2 out_dir))]) ++ "  manifest.json\n")))
          out_dir)))) := by
    simp only [finalizePhase]
    rw [fsGet_fsSet_eq]
  refine ⟨_, manifestFiles env fs2 out_dir, hraws, objSet_artifacts_ne hart _,
    (fun hinj heq => objSet_artifacts_ne hart _ (hinj heq)), ?_, ?_, ?_⟩
  · simp only [finalizePhase]
    rw [fsGet_fsSet_ne _ _ _ _ (append_ne_right _ (by decide)),
      fsGet_fsSet_ne _ _ _ _ (append_ne_right _ (by decide)),
      fsGet_fsSet_eq]
  · apply mem_ordSort.mpr
    apply List.mem_filterMap.mpr
    refine ⟨(out_dir ++ ["evidence.json"], ev), ?_, ?_⟩
    · apply List.mem_filter.mpr
      constructor
      · rw [hfs2]
        apply List.mem_cons_of_mem
        apply List.mem_filter.mpr
        refine ⟨List.mem_cons_self _ _, ?_⟩
        simp only [Bool.not_eq_true']
        exact beq_eq_false_iff_ne.mpr (append_ne_right _ (by decide))
      · simp only [Bool.and_eq_true, Bool.not_eq_true']
        refine ⟨isPrefixOf_append_self _ _, ?_⟩
        rw [contains_append, hgit]
        decide
    · simp [manifestEntry, List.drop_left, strJoin]
  · intro e he hpath
    obtain ⟨⟨q, v⟩, hqv, hf⟩ := List.mem_filterMap.mp (mem_ordSort.mp he)
    simp only [manifestEntry] at hf
    by_cases hrel : strJoin ("/") (q.drop out_dir.length) = "manifest.json" ∨
        strJoin ("/") (q.drop out_dir.length) = "manifest.sha256"
    · simp [hrel] at hf
    · simp only [if_neg hrel, Option.some.injEq] at hf
      subst hf
      simp only [JVal.get, List.lookup] at hpath
      have hrelj : strJoin ("/") (q.drop out_dir.length) = "evidence.json" := by
        simpa using hpath
      have hq2 := (List.mem_filter.mp hqv).1
      rw [hfs2] at hq2
      rcases List.mem_cons.mp hq2 with hmd | htl
      · have hqq : q = out_dir ++ ["evidence.md"] := congrArg Prod.fst hmd
        rw [hqq, List.drop_left] at hrelj
        simp [strJoin] at hrelj
      · have hq3 := (List.mem_filter.mp htl).1
        rcases List.mem_cons.mp hq3 with hev | hfs
        · have hvv : v = ev := congrArg Prod.snd hev
          subst hvv
          simp [JVal.get, List.lookup]
        · have hq4 := (List.mem_filter.mp hfs).1
          exact absurd hrelj (hclean q v hq4)

/-- Witness for C10 at a concrete one-file bundle. -/
theorem manifest_hashes_intermediate_evidence_witness :
    (JVal.obj [("artifacts", .obj [])]).get ("artifacts") = .obj [] ∧
      ∃ (raws : List String) (files : List JVal),
        fsGet (finalizePhase ceEnv
            (fsSet (fsSet [] (["o"] ++ ["evidence.json"]) (.obj [("artifacts", .obj [])]))
              (["o"] ++ ["evidence.md"]) (.str ("m"))) ["o"] (.obj [("artifacts", .obj [])]))
            (["o"] ++ ["evidence.json"])
          = some (objSet (.obj [("artifacts", .obj [])]) ("artifacts") (artifactsIndex raws)) ∧
        objSet (.obj [("artifacts", .obj [])]) ("artifacts") (artifactsIndex raws)
          ≠ .obj [("artifacts", .obj [])] ∧
        (Function.Injective ceEnv.sha →
          ceEnv.sha (objSet (.obj [("artifacts", .obj [])]) ("artifacts") (artifactsIndex raws))
            ≠ ceEnv.sha (.obj [("artifacts", .obj [])])) ∧
        fsGet (finalizePhase ceEnv
            (fsSet (fsSet [] (["o"] ++ ["evidence.json"]) (.obj [("artifacts", .obj [])]))
              (["o"] ++ ["evidence.md"]) (.str ("m"))) ["o"] (.obj [("artifacts", .obj [])]))
            (["o"] ++ ["manifest.json"])
          = some (.obj [("generated_at_utc", .str ceEnv.now0), ("files", .arr files)]) ∧
        (JVal.obj [("path", .str ("evidence.json")),
          ("sha256", .str (ceEnv.sha (.obj [("artifacts", .obj [])]))),
          ("size", .int (ceEnv.size (.obj [("artifacts", .obj [])])))]) ∈ files ∧
        (∀ e ∈ files, e.get ("path") = .str ("evidence.json") →
          e.get ("sha256") = .str (ceEnv.sha (.obj [("artifacts", .obj [])])) ∧
          e.get ("size") = .int (ceEnv.size (.obj [("artifacts", .obj [])]))) :=
  ⟨rfl, manifest_hashes_intermediate_evidence ceEnv [] ["o"]
    (.obj [("artifacts", .obj [])]) ("m") rfl (by decide)
    (fun q v h => absurd h (List.not_mem_nil _))⟩

end Neuroctrl
